import Mathlib

/-!
Verification development for the ArthaNethra document-understanding backend.

Shallow embedding of the backend services that the checked properties talk
about: the HTTP retry helper of the extraction service, document ingestion,
the normalizer's cascade selection, JSON-state persistence, the relationship
detector, the markdown schema analyzer, and the text-chunk indexer.

Conventions used throughout:
* Python dicts that the code iterates over are modelled as association
  lists in insertion order (Python dicts preserve insertion order).
* Python scalar values stored in entity/edge property mappings are modelled
  by `PVal` (string, integer, or null) together with Python truthiness.
* Machine floats that the code only compares or floors are modelled with
  exact rationals; every checked property is insensitive to rounding
  (it relies only on sign, ordering against constants, and explicit caps).
* Values produced by external collaborators (the remote extraction service,
  the LLM, BeautifulSoup's HTML parse) are universally quantified inputs.
-/

/-- Scalar property value as stored in the Python property mappings:
a string, an integer, or None. -/
inductive PVal where
  | s (v : String)
  | i (v : Int)
  | null
deriving DecidableEq, Repr

/-- Python truthiness of a scalar: None, the empty string and 0 are falsy. -/
def PVal.truthy : PVal → Bool
  | .s v => v ≠ ""
  | .i v => v ≠ 0
  | .null => false

/-- Python str() of a scalar value. -/
def PVal.pyStr : PVal → String
  | .s v => v
  | .i v => toString v
  | .null => "None"

/-- Property mapping: insertion-ordered association list, one entry per key. -/
abbrev PDict := List (String × PVal)

/-- dict.get: value of the first (unique) entry with the given key. -/
def pget (d : PDict) (k : String) : Option PVal :=
  (d.find? (fun p => p.1 = k)).map (fun p => p.2)

/-- Truthiness of an optional value, as in Python `if d.get(k):`. -/
def truthyOpt : Option PVal → Bool
  | some v => v.truthy
  | none => false

/-- dict item assignment `d[k] = v`: updates the entry in place when the key
is present, appends it otherwise (Python dict insertion-order semantics). -/
def pset (d : PDict) (k : String) (v : PVal) : PDict :=
  if (d.find? (fun p => p.1 = k)).isSome then
    d.map (fun p => if p.1 = k then (k, v) else p)
  else
    d ++ [(k, v)]

/-- `needle in haystack` on strings (substring containment). -/
def strContainsSub (haystack needle : String) : Bool :=
  go haystack.toList
where
  go : List Char → Bool
    | [] => needle.toList.isPrefixOf ([] : List Char)
    | c :: rest => needle.toList.isPrefixOf (c :: rest) || go rest

/-- Split a character list at every separator (a character satisfying the
predicate), keeping empty pieces, as Python's `str.split(sep)` does. -/
def splitByChar (p : Char → Bool) : List Char → List (List Char)
  | [] => [[]]
  | c :: rest =>
    if p c then [] :: splitByChar p rest
    else
      match splitByChar p rest with
      | h :: t => (c :: h) :: t
      | [] => [[c]]

/-- Python `str.split(sep)` for a single-character separator. -/
def pySplitOn (s : String) (sep : Char) : List String :=
  (splitByChar (fun c => c = sep) s.toList).map String.mk

/-- Python `str.split()` with no argument: split on whitespace runs,
discarding empty pieces. -/
def pySplitWhitespace (s : String) : List String :=
  ((splitByChar Char.isWhitespace s.toList).map String.mk).filter
    (fun w => w ≠ "")

/-- Strip leading and trailing whitespace from a character list. -/
def trimChars (cs : List Char) : List Char :=
  ((cs.dropWhile Char.isWhitespace).reverse.dropWhile Char.isWhitespace).reverse

/-- Python `str.strip()` (ASCII whitespace). -/
def pyStrip (s : String) : String :=
  String.mk (trimChars s.toList)

/-- Python `str.upper()` (ASCII case mapping). -/
def pyUpper (s : String) : String :=
  String.mk (s.toList.map Char.toUpper)

/-- Python `str.lower()` (ASCII case mapping). -/
def pyLower (s : String) : String :=
  String.mk (s.toList.map Char.toLower)

/-!
## Extraction service: the HTTP retry helper

From `src/backend/services/extraction.py`, `ExtractionService._retry_request`.
The helper performs up to `max_retries + 1` attempts (defaults:
`max_retries = 2`, `initial_delay = 0.5`, `max_delay = 8.0`).  Each attempt
either returns an HTTP response with some status code or raises a transport
error (connection error / timeout / network error).  In the source, a
response with status `< 400` is returned; every response with status
`>= 400` reaches a `raise_for_status()` call — the comment in the source
says non-retryable 4xx codes are meant to "raise immediately", but the
raised `httpx.HTTPStatusError` is caught by the surrounding
`except (httpx.HTTPStatusError, httpx.ConnectError, httpx.TimeoutException,
httpx.NetworkError)` clause, which sleeps and retries unless the attempt
budget is exhausted.
-/

/-- Outcome of one HTTP attempt, as seen by `_retry_request`:
either a response carrying a status code, or a raised transport error. -/
inductive CallOutcome where
  | resp (status : Nat)
  | connError
  | timeoutError
  | networkError
deriving DecidableEq, Repr

/-- The exception classes that `_retry_request` can catch or re-raise. -/
inductive RetryError where
  | httpStatus (code : Nat)
  | conn
  | timeout
  | network
deriving DecidableEq, Repr

deriving instance DecidableEq for Except

/-- Result of `_retry_request` on a fixed trace of attempt outcomes:
the value returned or the exception finally raised, the number of HTTP
attempts performed, and the backoff delays slept between attempts. -/
structure RetryResult where
  outcome : Except RetryError Nat
  attempts : Nat
  delays : List ℚ
deriving DecidableEq, Repr

/-- Backoff delay before retrying attempt number `attempt` (0-based):
`min(initial_delay * 2 ** attempt, max_delay)` with the default
`initial_delay = 0.5` and `max_delay = 8.0`. -/
def backoffDelay (attempt : Nat) : ℚ :=
  min ((1 : ℚ)/2 * 2 ^ attempt) 8

/-- What one loop iteration of `_retry_request` does with the attempt's
outcome: return the response (status `< 400`) or raise an exception.
Both `raise_for_status()` call sites in the source raise for every status
`>= 400`; the branch structure only affects which comment the raise sits
under. -/
def classifyOutcome : CallOutcome → Except RetryError Nat
  | .resp status => if status < 400 then .ok status else .error (.httpStatus status)
  | .connError => .error .conn
  | .timeoutError => .error .timeout
  | .networkError => .error .network

/-- The retry loop of `_retry_request`, from attempt number `attempt` on,
with `retriesLeft = max_retries - attempt` remaining retries.  On an
exception: re-raise when no retries are left (`attempt >= max_retries`),
otherwise sleep `backoffDelay attempt` and retry. -/
def retryLoop (trace : Nat → CallOutcome) : Nat → Nat → List ℚ → RetryResult
  | retriesLeft, attempt, delaysAcc =>
    match classifyOutcome (trace attempt) with
    | .ok status => ⟨.ok status, attempt + 1, delaysAcc⟩
    | .error e =>
      match retriesLeft with
      | 0 => ⟨.error e, attempt + 1, delaysAcc⟩
      | r + 1 => retryLoop trace r (attempt + 1) (delaysAcc ++ [backoffDelay attempt])

/-- `_retry_request` with the default `max_retries = 2`, as a function of the
trace of outcomes the server produces for the successive attempts. -/
def retryRequest (trace : Nat → CallOutcome) : RetryResult :=
  retryLoop trace 2 0 []

/-!
## Ingestion service

From `src/backend/services/ingestion.py` and `src/backend/config.py`.
The upload directory is modelled as an insertion-ordered map from file name
to stored byte count; the uploaded stream is modelled by its size (the code
inspects nothing but `len(content)` and writes the bytes verbatim).
`open(file_path, "wb")` creates (or truncates) the target file before any
bytes are written, so it is modelled as storing a 0-byte file.
-/

/-- The accepted media types (`IngestionService._is_valid_file_type`). -/
def valid_media_types : List String :=
  [ "application/pdf",
    "application/msword",
    "application/vnd.openxmlformats-officedocument.wordprocessingml.document",
    "application/vnd.ms-powerpoint",
    "application/vnd.openxmlformats-officedocument.presentationml.presentation",
    "application/vnd.oasis.opendocument.text",
    "application/vnd.oasis.opendocument.presentation",
    "image/jpeg",
    "image/png",
    "application/zip",
    "application/x-zip-compressed",
    "application/vnd.ms-excel",
    "application/vnd.openxmlformats-officedocument.spreadsheetml.sheet",
    "text/csv" ]

/-- `IngestionService._is_valid_file_type`. -/
def is_valid_file_type (mimeType : String) : Bool :=
  valid_media_types.contains mimeType

/-- `settings.MAX_UPLOAD_SIZE` (100 MiB). -/
def MAX_UPLOAD_SIZE : Nat := 104857600

/-- `settings.UPLOAD_DIR`. -/
def UPLOAD_DIR : String := "./uploads"

/-- The upload directory: file name to size of the stored blob, in creation
order. -/
abbrev UploadDir := List (String × Nat)

/-- Store a file of the given size under the given name: overwrite the
existing entry in place, or append a new one. -/
def fsPut : UploadDir → String → Nat → UploadDir
  | [], name, size => [(name, size)]
  | p :: rest, name, size =>
    if p.1 = name then (name, size) :: rest else p :: fsPut rest name size

/-- Size of the file stored under `name`, if present. -/
def fsLookup (fs : UploadDir) (name : String) : Option Nat :=
  (fs.find? (fun p => p.1 = name)).map (fun p => p.2)

/-- After storing a file, looking its name up yields the stored size. -/
theorem fsLookup_fsPut_self (fs : UploadDir) (name : String) (size : Nat) :
    fsLookup (fsPut fs name size) name = some size := by
  induction fs with
  | nil => simp [fsPut, fsLookup]
  | cons p rest ih =>
    by_cases hp : p.1 = name
    · simp [fsPut, hp, fsLookup]
    · simpa [fsPut, hp, fsLookup, List.find?] using ih

/-- `pathlib.PurePath(filename).suffix` for a plain file name: the text from
the last dot on, provided that dot is neither the first nor the last
character of the name. -/
def path_suffix (filename : String) : String :=
  let cs := filename.toList
  match (List.range cs.length).filter (fun j => cs.getD j ' ' = '.') |>.getLast? with
  | some j => if 0 < j ∧ j < cs.length - 1 then String.mk (cs.drop j) else ""
  | none => ""

/-- Validation failures of `ingest_document`. -/
inductive IngestError where
  | unsupportedType
  | tooLarge
deriving DecidableEq, Repr

/-- The fields of the returned Document that ingestion sets. -/
structure IngestedDocument where
  id : String
  filename : String
  file_path : String
  file_size : Nat
  mime_type : String
  statusUploaded : Bool
deriving DecidableEq, Repr

/-- `IngestionService.ingest_document`, as a function of the (random)
document id, the declared file name and media type, and the size of the
uploaded stream.  Returns the updated upload directory together with the
created Document or the raised validation error.  Mirrors the source
order of effects: media-type check, then `open(file_path, "wb")` (which
creates the file), then the size check (raising with the empty file already
on disk), then the write. -/
def ingest_document (fs : UploadDir) (docId filename mimeType : String)
    (contentSize : Nat) : UploadDir × Except IngestError IngestedDocument :=
  if ¬ is_valid_file_type mimeType then
    (fs, .error .unsupportedType)
  else
    let safeFilename := docId ++ path_suffix filename
    let fs1 := fsPut fs safeFilename 0
    if contentSize > MAX_UPLOAD_SIZE then
      (fs1, .error .tooLarge)
    else
      (fsPut fs1 safeFilename contentSize,
       .ok ⟨docId, filename, UPLOAD_DIR ++ "/" ++ safeFilename,
            contentSize, mimeType, true⟩)

/-- Boolean success test for an `Except` result. -/
def exceptOk {ε α : Type} : Except ε α → Bool
  | .ok _ => true
  | .error _ => false

/-!
## Claim C1 — retry policy of `_retry_request`

The claim (and the function's own docstring) say a non-retryable 4xx
response such as 404 propagates to the caller immediately, without any
retry attempt.  In the source, the `raise_for_status()` meant to implement
this is caught by the function's own `except httpx.HTTPStatusError` clause,
so a 404 response is retried exactly like a 500: three attempts in total,
with backoff sleeps of 0.5s and 1.0s before raising.
-/

/-- C1: evaluating the retry helper at the failing input.  A request whose
response is 404 on every attempt is retried twice (3 attempts, sleeping
0.5s then 1.0s) before the status error propagates — the claim (and the
source's docstring) say it should propagate immediately after 1 attempt.
The other conjuncts record the surrounding behaviour: a 200 response
returns at once, a persistent connection error and a persistent 500 are
retried to exhaustion, and a 500 followed by a 200 succeeds on the second
attempt with the 0.5s base delay. -/
theorem retry_request_retries_404 :
    retryRequest (fun _ => .resp 404)
      = ⟨.error (.httpStatus 404), 3, [1/2, 1]⟩
  ∧ (retryRequest (fun _ => .resp 404)).attempts ≠ 1
  ∧ retryRequest (fun _ => .resp 200) = ⟨.ok 200, 1, []⟩
  ∧ retryRequest (fun _ => .connError) = ⟨.error .conn, 3, [1/2, 1]⟩
  ∧ retryRequest (fun _ => .resp 503) = ⟨.error (.httpStatus 503), 3, [1/2, 1]⟩
  ∧ retryRequest (fun n => if n = 0 then .resp 500 else .resp 200)
      = ⟨.ok 200, 2, [1/2]⟩ := by
  refine ⟨?_, ?_, ?_, ?_, ?_, ?_⟩ <;>
    simp only [retryRequest, retryLoop, classifyOutcome, backoffDelay,
      RetryResult.mk.injEq] <;> norm_num

/-!
## Claim C5 — ingestion validation boundary
-/

/-- C5: an upload is accepted exactly when its declared media type is in the
accepted set and its size does not exceed `MAX_UPLOAD_SIZE`; an upload of
exactly `MAX_UPLOAD_SIZE` bytes succeeds, one byte more fails, and an
unsupported media type fails regardless of size. -/
theorem ingest_document_accepts_iff :
    (∀ (fs : UploadDir) (docId filename mimeType : String) (contentSize : Nat),
        exceptOk (ingest_document fs docId filename mimeType contentSize).2
          = (is_valid_file_type mimeType && decide (contentSize ≤ MAX_UPLOAD_SIZE)))
  ∧ exceptOk (ingest_document [] "doc_1" "q.pdf" "application/pdf" MAX_UPLOAD_SIZE).2 = true
  ∧ exceptOk (ingest_document [] "doc_1" "q.pdf" "application/pdf" (MAX_UPLOAD_SIZE + 1)).2 = false
  ∧ (∀ (contentSize : Nat),
        exceptOk (ingest_document [] "doc_1" "q.html" "text/html" contentSize).2 = false) := by
  refine ⟨?_, by decide, by decide, ?_⟩
  · intro fs docId filename mimeType contentSize
    by_cases hv : is_valid_file_type mimeType
    · by_cases hs : contentSize > MAX_UPLOAD_SIZE
      · simp [ingest_document, hv, hs, exceptOk, Nat.not_le.mpr hs]
      · simp [ingest_document, hv, hs, exceptOk, Nat.not_lt.mp (by exact hs)]
    · simp [ingest_document, hv, exceptOk]
  · intro contentSize
    simp [ingest_document, is_valid_file_type, valid_media_types, exceptOk]

/-!
## Claim C4 — what ingestion leaves in the upload directory

The claim says a rejected upload (unsupported type or oversize) leaves no
file for the document id, not even an empty one.  The source opens the
target file for writing *before* checking the size, so an oversize upload
is rejected with a 0-byte `{id}.{ext}` file already created in the upload
directory.  A media-type rejection happens before the file is opened, and
on success the written blob is referenced by the returned Document.
-/

/-- C4 counterexample: ingesting a PDF one byte over `MAX_UPLOAD_SIZE` into
an empty upload directory raises the validation error but leaves an empty
file `doc_c4.pdf` in the directory, contradicting the claim that no file
for the document id remains after a validation rejection. -/
theorem ingest_oversize_leaves_empty_file :
    (ingest_document [] "doc_c4" "q.pdf" "application/pdf" (MAX_UPLOAD_SIZE + 1)).2
        = .error .tooLarge
  ∧ fsLookup (ingest_document [] "doc_c4" "q.pdf" "application/pdf" (MAX_UPLOAD_SIZE + 1)).1
        "doc_c4.pdf" = some 0 := by
  constructor <;> decide

/-- C4 (amended): ingestion writes the blob to the upload directory under
the name `{id}{ext}`; a media-type rejection leaves no file for the
document id, an oversize rejection leaves a 0-byte file for it, and on
success the returned Document has status uploaded and a file path
referencing the written blob, which is stored with the uploaded size. -/
theorem ingest_document_file_effects (fs : UploadDir)
    (docId filename mimeType : String) (contentSize : Nat)
    (hclean : fsLookup fs (docId ++ path_suffix filename) = none) :
    (is_valid_file_type mimeType = false →
        fsLookup (ingest_document fs docId filename mimeType contentSize).1
            (docId ++ path_suffix filename) = none)
  ∧ (is_valid_file_type mimeType = true → MAX_UPLOAD_SIZE < contentSize →
        (ingest_document fs docId filename mimeType contentSize).2 = .error .tooLarge
      ∧ fsLookup (ingest_document fs docId filename mimeType contentSize).1
            (docId ++ path_suffix filename) = some 0)
  ∧ (is_valid_file_type mimeType = true → contentSize ≤ MAX_UPLOAD_SIZE →
        (∃ d, (ingest_document fs docId filename mimeType contentSize).2 = .ok d
            ∧ d.statusUploaded = true
            ∧ d.file_path = UPLOAD_DIR ++ "/" ++ (docId ++ path_suffix filename)
            ∧ d.file_size = contentSize)
      ∧ fsLookup (ingest_document fs docId filename mimeType contentSize).1
            (docId ++ path_suffix filename) = some contentSize) := by
  refine ⟨?_, ?_, ?_⟩
  · intro hv
    simp [ingest_document, hv, hclean]
  · intro hv hs
    have hred : ingest_document fs docId filename mimeType contentSize
        = (fsPut fs (docId ++ path_suffix filename) 0, .error .tooLarge) := by
      simp [ingest_document, hv, hs]
    rw [hred]
    exact ⟨rfl, fsLookup_fsPut_self _ _ _⟩
  · intro hv hs
    have hns : ¬ contentSize > MAX_UPLOAD_SIZE := Nat.not_lt.mpr hs
    have hred : ingest_document fs docId filename mimeType contentSize
        = (fsPut (fsPut fs (docId ++ path_suffix filename) 0)
             (docId ++ path_suffix filename) contentSize,
           .ok ⟨docId, filename,
             UPLOAD_DIR ++ "/" ++ (docId ++ path_suffix filename),
             contentSize, mimeType, true⟩) := by
      simp [ingest_document, hv, hns]
    rw [hred]
    exact ⟨⟨_, rfl, rfl, rfl, rfl⟩, fsLookup_fsPut_self _ _ _⟩

/-- C4 witness: concrete runs of `ingest_document` exercising the amended
theorem — a 3-byte accepted PDF is stored with its size, and an oversize
PDF leaves the 0-byte file behind. -/
theorem ingest_document_file_effects_witness :
    fsLookup (ingest_document [] "doc_w4" "a.pdf" "application/pdf" 3).1
        ("doc_w4" ++ path_suffix "a.pdf") = some 3
  ∧ fsLookup (ingest_document [] "doc_w4" "a.pdf" "application/pdf"
        (MAX_UPLOAD_SIZE + 1)).1 ("doc_w4" ++ path_suffix "a.pdf") = some 0 := by
  have h1 := ingest_document_file_effects [] "doc_w4" "a.pdf" "application/pdf"
    3 (by decide)
  have h2 := ingest_document_file_effects [] "doc_w4" "a.pdf" "application/pdf"
    (MAX_UPLOAD_SIZE + 1) (by decide)
  exact ⟨(h1.2.2 (by decide) (by decide)).2, (h2.2.1 (by decide) (by decide)).2⟩

/-!
## Knowledge-graph model: entity and edge types

From `src/backend/models/entity.py` and `src/backend/models/edge.py`.
Entities and edges are modelled with the fields the checked services
inspect; randomly generated ids (`uuid`), bookkeeping properties
(confidence / reasoning / detected_by) and timestamps carried on edges are
not observed by any checked property and are omitted from the edge record.
-/

/-- The closed entity type set (`EntityType`). -/
inductive EntityType where
  | COMPANY | SUBSIDIARY | LOAN | INVOICE | METRIC
  | CLAUSE | INSTRUMENT | VENDOR | PERSON | LOCATION
deriving DecidableEq, Repr

/-- The closed edge type set (`EdgeType`). -/
inductive EdgeType where
  | HAS_LOAN | OWNS | PARTY_TO | HAS_METRIC | CONTAINS
  | REPORTS_TO | ISSUED_BY | GUARANTEES | RELATED_TO | LOCATED_IN
  | WORKS_FOR | SUBSIDIARY_OF | SUPPLIES_TO | MENTIONED_IN | ACQUIRED
  | INVESTED_IN | PARTNERS_WITH | PROVIDES_SERVICE_FOR
  | RECEIVES_SERVICE_FROM | OWES | HAS_RISK | REGULATED_BY | FINANCED_BY
  | REPORTS_ON | REFERENCES | ASSOCIATED_WITH
deriving DecidableEq, Repr

/-- The string value of an `EdgeType` enum member (name and value
coincide for every member). -/
def edge_type_value : EdgeType → String
  | .HAS_LOAN => "HAS_LOAN"
  | .OWNS => "OWNS"
  | .PARTY_TO => "PARTY_TO"
  | .HAS_METRIC => "HAS_METRIC"
  | .CONTAINS => "CONTAINS"
  | .REPORTS_TO => "REPORTS_TO"
  | .ISSUED_BY => "ISSUED_BY"
  | .GUARANTEES => "GUARANTEES"
  | .RELATED_TO => "RELATED_TO"
  | .LOCATED_IN => "LOCATED_IN"
  | .WORKS_FOR => "WORKS_FOR"
  | .SUBSIDIARY_OF => "SUBSIDIARY_OF"
  | .SUPPLIES_TO => "SUPPLIES_TO"
  | .MENTIONED_IN => "MENTIONED_IN"
  | .ACQUIRED => "ACQUIRED"
  | .INVESTED_IN => "INVESTED_IN"
  | .PARTNERS_WITH => "PARTNERS_WITH"
  | .PROVIDES_SERVICE_FOR => "PROVIDES_SERVICE_FOR"
  | .RECEIVES_SERVICE_FROM => "RECEIVES_SERVICE_FROM"
  | .OWES => "OWES"
  | .HAS_RISK => "HAS_RISK"
  | .REGULATED_BY => "REGULATED_BY"
  | .FINANCED_BY => "FINANCED_BY"
  | .REPORTS_ON => "REPORTS_ON"
  | .REFERENCES => "REFERENCES"
  | .ASSOCIATED_WITH => "ASSOCIATED_WITH"

/-- All members of `EdgeType`, in declaration order (iteration order of the
Python enum). -/
def all_edge_types : List EdgeType :=
  [ .HAS_LOAN, .OWNS, .PARTY_TO, .HAS_METRIC, .CONTAINS, .REPORTS_TO,
    .ISSUED_BY, .GUARANTEES, .RELATED_TO, .LOCATED_IN, .WORKS_FOR,
    .SUBSIDIARY_OF, .SUPPLIES_TO, .MENTIONED_IN, .ACQUIRED, .INVESTED_IN,
    .PARTNERS_WITH, .PROVIDES_SERVICE_FOR, .RECEIVES_SERVICE_FROM, .OWES,
    .HAS_RISK, .REGULATED_BY, .FINANCED_BY, .REPORTS_ON, .REFERENCES,
    .ASSOCIATED_WITH ]

/-- Entity, with the fields inspected by the relationship detector and the
normalizer (id, type, name, property mapping). -/
structure Entity where
  id : String
  type : EntityType
  name : String
  properties : PDict
deriving DecidableEq, Repr

/-- Edge, reduced to the observable triple (source entity id, target entity
id, edge type). -/
structure Edge where
  source : String
  target : String
  type : EdgeType
deriving DecidableEq, Repr

/-!
## Relationship detector

From `src/backend/services/relationship_detector.py`.
-/

/-- `RelationshipDetector.edge_type_mapping`: canonical value (and enum
member name, which coincides) of every `EdgeType`, upper-cased — i.e. a
lookup of the canonical strings. -/
def edge_type_mapping_lookup (key : String) : Option EdgeType :=
  all_edge_types.find? (fun t => edge_type_value t = key)

/-- `RelationshipDetector.edge_type_aliases`: LLM-produced synonyms mapped
to canonical edge types, transcribed in source order. -/
def edge_type_aliases : List (String × EdgeType) :=
  [ ("OWNER_OF", .OWNS),
    ("OWNED_BY", .SUBSIDIARY_OF),
    ("PARENT_OF", .OWNS),
    ("PARENT_COMPANY", .OWNS),
    ("CHILD_OF", .SUBSIDIARY_OF),
    ("SUBSIDIARY", .SUBSIDIARY_OF),
    ("PARTNER_OF", .PARTNERS_WITH),
    ("PARTNERS_WITH", .PARTNERS_WITH),
    ("PARTNERSHIP_WITH", .PARTNERS_WITH),
    ("PROVIDES_SERVICES_TO", .PROVIDES_SERVICE_FOR),
    ("PROVIDES_SERVICE_TO", .PROVIDES_SERVICE_FOR),
    ("PROVIDES_SERVICE", .PROVIDES_SERVICE_FOR),
    ("PROVIDES_TO", .PROVIDES_SERVICE_FOR),
    ("SUPPLIES", .SUPPLIES_TO),
    ("SUPPLIES_FOR", .SUPPLIES_TO),
    ("SUPPLIER_OF", .SUPPLIES_TO),
    ("RECEIVES_SERVICE", .RECEIVES_SERVICE_FROM),
    ("RECEIVES_SERVICES_FROM", .RECEIVES_SERVICE_FROM),
    ("CUSTOMER_OF", .RECEIVES_SERVICE_FROM),
    ("CLIENT_OF", .RECEIVES_SERVICE_FROM),
    ("INVESTED", .INVESTED_IN),
    ("INVESTED_INTO", .INVESTED_IN),
    ("INVESTOR_IN", .INVESTED_IN),
    ("ACQUIRED_BY", .ACQUIRED),
    ("ACQUIRES", .ACQUIRED),
    ("GUARANTEED_BY", .GUARANTEES),
    ("GUARANTEE_OF", .GUARANTEES),
    ("GUARANTOR", .GUARANTEES),
    ("LOANED_BY", .FINANCED_BY),
    ("FINANCED", .FINANCED_BY),
    ("FINANCED_BY", .FINANCED_BY),
    ("BORROWS_FROM", .FINANCED_BY),
    ("OWES_TO", .OWES),
    ("OWES_TOWARDS", .OWES),
    ("DEBT_TO", .OWES),
    ("ISSUED_TO", .ISSUED_BY),
    ("REGULATED", .REGULATED_BY),
    ("REGULATED_BY", .REGULATED_BY),
    ("REPORTS_ON", .REPORTS_ON),
    ("REPORTS_ABOUT", .REPORTS_ON),
    ("REFERENCED_IN", .MENTIONED_IN),
    ("MENTIONS", .REFERENCES),
    ("MENTIONED_BY", .REFERENCES),
    ("DOCUMENTS", .REPORTS_ON),
    ("CONNECTED_TO", .RELATED_TO),
    ("ASSOCIATED_TO", .ASSOCIATED_WITH),
    ("ASSOCIATED_WITH", .ASSOCIATED_WITH),
    ("RELATES_TO", .RELATED_TO),
    ("LINKED_TO", .RELATED_TO) ]

/-- Canonicalization applied to a raw edge-type string before lookup:
`str(raw).strip().upper()` with `-` and then spaces replaced by `_`
(pointwise character replacement coincides with the source's two
single-character `str.replace` calls). -/
def canonical_edge_key (raw : String) : String :=
  String.mk (((trimChars raw.toList).map Char.toUpper).map
    (fun c => if c = '-' ∨ c = ' ' then '_' else c))

/-- `RelationshipDetector._normalize_edge_type`: map an arbitrary edge-type
string to a canonical `EdgeType`, falling back to RELATED_TO when the
string is empty (falsy) or unmapped. -/
def normalize_edge_type (raw : String) : EdgeType :=
  if raw = "" then .RELATED_TO
  else
    let key := canonical_edge_key raw
    match edge_type_mapping_lookup key with
    | some t => t
    | none =>
      match (edge_type_aliases.find? (fun p => p.1 = key)).map (fun p => p.2) with
      | some t => t
      | none => .RELATED_TO

/-- One relationship entry parsed from the LLM's JSON response: a JSON
object whose relevant keys may each be absent. -/
structure RelEntry where
  source_id : Option String
  target_id : Option String
  edge_type : Option String
  confidence : Option ℚ
deriving DecidableEq, Repr

/-- The edge-conversion loop of
`RelationshipDetector._detect_relationships_in_chunk`: each entry is
skipped when `rel.get('confidence', 0.8) < 0.6`; otherwise an Edge is
built from `rel['source_id']`, `rel['target_id']` (a `KeyError` on a
missing key aborts the whole chunk) and the normalized
`rel.get('edge_type', 'RELATED_TO')`. -/
def convert_relationships : List RelEntry → Except Unit (List Edge)
  | [] => .ok []
  | r :: rest =>
    if r.confidence.getD (4/5) < 3/5 then convert_relationships rest
    else
      match r.source_id, r.target_id with
      | some src, some tgt =>
        (convert_relationships rest).map
          (fun es => ⟨src, tgt, normalize_edge_type (r.edge_type.getD "RELATED_TO")⟩ :: es)
      | _, _ => .error ()

/-- The chunk-level result: the exception raised by a malformed entry is
caught by the enclosing `except`, which returns the empty edge list. -/
def detect_relationships_in_chunk_convert (rels : List RelEntry) : List Edge :=
  match convert_relationships rels with
  | .ok es => es
  | .error _ => []

/-- Deduplication key of an edge: the ordered triple
(source, target, type). -/
def ekey (e : Edge) : String × String × EdgeType :=
  (e.source, e.target, e.type)

/-- The loop of `RelationshipDetector._deduplicate_edges` with its `seen`
set of keys. -/
def dedupGo (seen : List (String × String × EdgeType)) : List Edge → List Edge
  | [] => []
  | e :: rest =>
    if ekey e ∈ seen then dedupGo seen rest
    else e :: dedupGo (ekey e :: seen) rest

/-- `RelationshipDetector._deduplicate_edges`. -/
def deduplicate_edges (edges : List Edge) : List Edge :=
  dedupGo [] edges

/-- Specification-side rendering of "the first occurrence of each distinct
(source, target, type) triple in input order": keep the head and recurse on
the tail purged of the head's key. -/
def dedupFirst : List Edge → List Edge
  | [] => []
  | e :: rest => e :: dedupFirst (rest.filter (fun x => ekey x ≠ ekey e))
termination_by l => l.length
decreasing_by
  simp only [List.length_cons]
  exact Nat.lt_succ_of_le (List.length_filter_le _ _)

/-- The heuristic loop of `RelationshipDetector.enhance_with_heuristics`
that links every Metric entity to the main (first) Company entity with a
HAS_METRIC edge, unless the LLM already produced that exact edge. -/
def metric_edges (llm_edges : List Edge) (entities : List Entity)
    (main : Entity) : List Edge :=
  entities.filterMap (fun ent =>
    if ent.type = EntityType.METRIC then
      if llm_edges.any (fun e =>
          decide (e.source = main.id ∧ e.target = ent.id ∧ e.type = EdgeType.HAS_METRIC)) then
        none
      else
        some ⟨main.id, ent.id, EdgeType.HAS_METRIC⟩
    else none)

/-- `RelationshipDetector._create_shared_property_edges`: the grouping
fields, in source order. -/
def grouping_properties : List String :=
  [ "county", "state", "country", "region",
    "industry", "sector", "parent_company",
    "lender", "guarantor", "creditor",
    "party", "vendor", "supplier" ]

/-- First skip test of the grouping loop:
`not prop_value or prop_value in [None, "", 0, "0", "null", "none"]`. -/
def grouping_skip_value (v : PVal) : Bool :=
  !v.truthy || v ∈ [PVal.null, PVal.s "", PVal.i 0, PVal.s "0",
    PVal.s "null", PVal.s "none"]

/-- Second skip test: `value_str` empty after strip, or lowercased in
`['null', 'none', '0', 'n/a']`. -/
def grouping_skip_str (valueStr : String) : Bool :=
  valueStr = "" || pyLower valueStr ∈ ["null", "none", "0", "n/a"]

/-- `groups.setdefault(value_str, []).append(entity)`: append the entity to
its value group, creating the group at the end on first sight. -/
def groupAppend : List (String × List Entity) → String → Entity →
    List (String × List Entity)
  | [], k, ent => [(k, [ent])]
  | g :: rest, k, ent =>
    if g.1 = k then (k, g.2 ++ [ent]) :: rest else g :: groupAppend rest k ent

/-- Grouping pass of `_create_shared_property_edges` for one property
name: partition the entities by the (cleaned) value of that property,
skipping trivial values. -/
def group_for_property (entities : List Entity) (propName : String) :
    List (String × List Entity) :=
  entities.foldl (fun groups ent =>
    match pget ent.properties propName with
    | none => groups
    | some v =>
      if grouping_skip_value v then groups
      else
        let valueStr := pyStrip v.pyStr
        if grouping_skip_str valueStr then groups
        else groupAppend groups valueStr ent) []

/-- Relationship type chosen for a shared-property group:
`county` gives LOCATED_IN, every other grouping field gives RELATED_TO. -/
def shared_property_rel_type (propName : String) : EdgeType :=
  if propName ∈ ["county", "state", "country", "region"] then
    (if propName = "county" then EdgeType.LOCATED_IN else EdgeType.RELATED_TO)
  else EdgeType.RELATED_TO

/-- All ordered pairs (i, j) with i before j in the group list, in loop
order (groups of fewer than 2 entities contribute no pairs, matching the
`len < 2` skip in the source). -/
def pairsAfter : List Entity → List (Entity × Entity)
  | [] => []
  | s :: rest => rest.map (fun t => (s, t)) ++ pairsAfter rest

/-- Pair loop of `_create_shared_property_edges` for one value group:
propose an edge for each pair unless an edge between the two entities (in
either direction, of any type) already exists among the given edges or the
edges created so far. -/
def addGroupEdges (existing : List Edge) (relType : EdgeType)
    (group : List Entity) (acc0 : List Edge) : List Edge :=
  (pairsAfter group).foldl (fun acc st =>
    if (existing ++ acc).any (fun e =>
        decide ((e.source = st.1.id ∧ e.target = st.2.id) ∨
                (e.source = st.2.id ∧ e.target = st.1.id))) then
      acc
    else acc ++ [⟨st.1.id, st.2.id, relType⟩]) acc0

/-- `RelationshipDetector._create_shared_property_edges`. -/
def create_shared_property_edges (entities : List Entity)
    (existing_edges : List Edge) : List Edge :=
  grouping_properties.foldl (fun newAcc propName =>
    (group_for_property entities propName).foldl (fun acc g =>
      addGroupEdges existing_edges (shared_property_rel_type propName) g.2 acc)
      newAcc) []

/-- `RelationshipDetector.enhance_with_heuristics`: metric edges to the
first Company, then shared-property edges (checked against the LLM,
heuristic and narrative edges), then deduplication of the combined list. -/
def enhance_with_heuristics (llm_edges : List Edge) (entities : List Entity)
    (existing_narrative_edges : List Edge) : List Edge :=
  let companies := entities.filter (fun e => decide (e.type = EntityType.COMPANY))
  let heuristic_metric_edges :=
    match companies.head? with
    | some main => metric_edges llm_edges entities main
    | none => []
  let property_edges := create_shared_property_edges entities
    (llm_edges ++ heuristic_metric_edges ++ existing_narrative_edges)
  deduplicate_edges (llm_edges ++ (heuristic_metric_edges ++ property_edges))

/-- A key occurs in the output of the dedup loop exactly when it is not
already seen and occurs in the input. -/
theorem dedupGo_key_iff (k : String × String × EdgeType) :
    ∀ (l : List Edge) (seen : List (String × String × EdgeType)),
      (∃ e ∈ dedupGo seen l, ekey e = k) ↔ (k ∉ seen ∧ ∃ e ∈ l, ekey e = k) := by
  intro l
  induction l with
  | nil => intro seen; simp [dedupGo]
  | cons e rest ih =>
    intro seen
    by_cases hs : ekey e ∈ seen
    · rw [dedupGo, if_pos hs, ih seen]
      constructor
      · rintro ⟨hk, x, hx, hkx⟩
        exact ⟨hk, x, List.mem_cons_of_mem _ hx, hkx⟩
      · rintro ⟨hk, x, hx, hkx⟩
        rcases List.mem_cons.mp hx with hxe | hxr
        · subst hxe
          exact absurd (hkx ▸ hs) hk
        · exact ⟨hk, x, hxr, hkx⟩
    · rw [dedupGo, if_neg hs]
      by_cases hk : ekey e = k
      · constructor
        · intro _
          exact ⟨hk ▸ hs, e, List.mem_cons_self _ _, hk⟩
        · intro _
          exact ⟨e, List.mem_cons_self _ _, hk⟩
      · constructor
        · rintro ⟨x, hx, hkx⟩
          rcases List.mem_cons.mp hx with hxe | hxr
          · subst hxe
            exact absurd hkx hk
          · rcases (ih (ekey e :: seen)).mp ⟨x, hxr, hkx⟩ with ⟨hnot, y, hy, hky⟩
            exact ⟨fun hmem => hnot (List.mem_cons_of_mem _ hmem),
              y, List.mem_cons_of_mem _ hy, hky⟩
        · rintro ⟨hnot, x, hx, hkx⟩
          rcases List.mem_cons.mp hx with hxe | hxr
          · subst hxe
            exact absurd hkx hk
          · have hknot : k ∉ ekey e :: seen := by
              simp only [List.mem_cons, not_or]
              exact ⟨fun h => hk h.symm, hnot⟩
            rcases (ih (ekey e :: seen)).mpr ⟨hknot, x, hxr, hkx⟩ with ⟨y, hy, hky⟩
            exact ⟨y, List.mem_cons_of_mem _ hy, hky⟩

/-- The dedup loop agrees with the first-occurrence specification once the
already-seen keys are filtered out of the input. -/
theorem dedupGo_eq_dedupFirst (l : List Edge) :
    ∀ seen, dedupGo seen l
      = dedupFirst (l.filter (fun e => decide (ekey e ∉ seen))) := by
  induction l with
  | nil => intro seen; simp [dedupGo, dedupFirst]
  | cons e rest ih =>
    intro seen
    by_cases hs : ekey e ∈ seen
    · rw [dedupGo, if_pos hs, ih seen]
      congr 1
      simp [List.filter_cons, hs]
    · rw [dedupGo, if_neg hs, ih (ekey e :: seen)]
      have hfilter : (e :: rest).filter (fun x => decide (ekey x ∉ seen))
          = e :: rest.filter (fun x => decide (ekey x ∉ seen)) := by
        simp [List.filter_cons, hs]
      rw [hfilter, dedupFirst]
      congr 1
      rw [List.filter_filter]
      congr 1
      apply List.filter_congr
      intro x _
      by_cases h1 : ekey x = ekey e <;> by_cases h2 : ekey x ∈ seen <;>
        simp [h1, h2]

/-- Every edge produced by the dedup loop has a key outside the seen set. -/
theorem dedupGo_not_seen :
    ∀ (l : List Edge) (seen : List (String × String × EdgeType)) (e : Edge),
      e ∈ dedupGo seen l → ekey e ∉ seen := by
  intro l
  induction l with
  | nil => intro seen e h; simp [dedupGo] at h
  | cons x rest ih =>
    intro seen e h
    by_cases hs : ekey x ∈ seen
    · rw [dedupGo, if_pos hs] at h
      exact ih seen e h
    · rw [dedupGo, if_neg hs] at h
      rcases List.mem_cons.mp h with he | he
      · exact he ▸ hs
      · intro hmem
        exact ih (ekey x :: seen) e he (List.mem_cons_of_mem _ hmem)

/-- The dedup loop's output has pairwise-distinct keys. -/
theorem dedupGo_pairwise :
    ∀ (l : List Edge) (seen : List (String × String × EdgeType)),
      (dedupGo seen l).Pairwise (fun x y => ekey x ≠ ekey y) := by
  intro l
  induction l with
  | nil => intro seen; simp [dedupGo]
  | cons e rest ih =>
    intro seen
    by_cases hs : ekey e ∈ seen
    · rw [dedupGo, if_pos hs]; exact ih seen
    · rw [dedupGo, if_neg hs]
      refine List.Pairwise.cons ?_ (ih (ekey e :: seen))
      intro y hy heq
      exact dedupGo_not_seen rest (ekey e :: seen) y hy (heq ▸ List.mem_cons_self _ _)

/-- On a list whose keys are pairwise distinct and disjoint from the seen
set, the dedup loop is the identity. -/
theorem dedupGo_id_of_pairwise :
    ∀ (l : List Edge) (seen : List (String × String × EdgeType)),
      l.Pairwise (fun x y => ekey x ≠ ekey y) → (∀ e ∈ l, ekey e ∉ seen) →
      dedupGo seen l = l := by
  intro l
  induction l with
  | nil => intro seen _ _; simp [dedupGo]
  | cons e rest ih =>
    intro seen hp hseen
    have hs : ekey e ∉ seen := hseen e (List.mem_cons_self _ _)
    rw [dedupGo, if_neg hs]
    congr 1
    refine ih (ekey e :: seen) (List.Pairwise.of_cons hp) ?_
    intro x hx
    simp only [List.mem_cons, not_or]
    exact ⟨fun h => (List.rel_of_pairwise_cons hp hx) h.symm,
      hseen x (List.mem_cons_of_mem _ hx)⟩

/-- C7: for every edge list, deduplication keeps exactly the first
occurrence of each distinct (source, target, type) triple in input order
(it equals the first-occurrence specification `dedupFirst`) and is
idempotent; moreover two edges with the same endpoints in opposite
directions are both kept: whenever the input contains edges keyed
(a, b, t) and (b, a, t) with `a ≠ b`, those two keys are distinct and the
deduplicated output contains edges with both keys. -/
theorem deduplicate_edges_spec (l : List Edge) :
    deduplicate_edges l = dedupFirst l
  ∧ deduplicate_edges (deduplicate_edges l) = deduplicate_edges l
  ∧ (∀ (a b : String) (t : EdgeType), a ≠ b →
      (∃ e ∈ l, ekey e = (a, b, t)) →
      (∃ e ∈ l, ekey e = (b, a, t)) →
      ((a, b, t) : String × String × EdgeType) ≠ (b, a, t)
      ∧ (∃ e ∈ deduplicate_edges l, ekey e = (a, b, t))
      ∧ (∃ e ∈ deduplicate_edges l, ekey e = (b, a, t))) := by
  refine ⟨?_, ?_, fun a b t hab h1 h2 => ⟨by simp [hab], ?_, ?_⟩⟩
  · rw [deduplicate_edges, dedupGo_eq_dedupFirst]
    congr 1
    simp
  · exact dedupGo_id_of_pairwise _ _ (dedupGo_pairwise l []) (by simp)
  · exact (dedupGo_key_iff (a, b, t) l []).mpr ⟨by simp, h1⟩
  · exact (dedupGo_key_iff (b, a, t) l []).mpr ⟨by simp, h2⟩

/-- C7 witness: a concrete run with a forward/backward pair and an exact
duplicate; the theorem yields that both directions survive deduplication
and that deduplicating twice changes nothing. -/
theorem deduplicate_edges_spec_witness :
    (∃ e ∈ deduplicate_edges
        [⟨"a", "b", .RELATED_TO⟩, ⟨"b", "a", .RELATED_TO⟩,
         ⟨"a", "b", .RELATED_TO⟩], ekey e = ("a", "b", EdgeType.RELATED_TO))
  ∧ (∃ e ∈ deduplicate_edges
        [⟨"a", "b", .RELATED_TO⟩, ⟨"b", "a", .RELATED_TO⟩,
         ⟨"a", "b", .RELATED_TO⟩], ekey e = ("b", "a", EdgeType.RELATED_TO))
  ∧ deduplicate_edges (deduplicate_edges
        [⟨"a", "b", .RELATED_TO⟩, ⟨"b", "a", .RELATED_TO⟩,
         ⟨"a", "b", .RELATED_TO⟩])
      = deduplicate_edges
        [⟨"a", "b", .RELATED_TO⟩, ⟨"b", "a", .RELATED_TO⟩,
         ⟨"a", "b", .RELATED_TO⟩] := by
  have h := deduplicate_edges_spec
    [⟨"a", "b", .RELATED_TO⟩, ⟨"b", "a", .RELATED_TO⟩, ⟨"a", "b", .RELATED_TO⟩]
  have h3 := h.2.2 "a" "b" .RELATED_TO (by decide) (by decide) (by decide)
  exact ⟨h3.2.1, h3.2.2, h.2.1⟩

/-!
## Claim C10 — the Company→Metric heuristic
-/

/-- C10: in heuristic enrichment, the first Company entity of the entity
list is linked to every Metric entity by a HAS_METRIC edge (pre-existing
identical LLM edges are reused rather than duplicated), so whenever the
entity list has a first Company `main` and contains a Metric `m`, the
enriched, deduplicated edge set contains an edge from `main` to `m` of
type HAS_METRIC. -/
theorem enhance_links_first_company_to_metrics
    (llm_edges : List Edge) (entities : List Entity)
    (existing_narrative_edges : List Edge) (main m : Entity)
    (hmain : (entities.filter
        (fun e => decide (e.type = EntityType.COMPANY))).head? = some main)
    (hm : m ∈ entities) (hmt : m.type = EntityType.METRIC) :
    ∃ e ∈ enhance_with_heuristics llm_edges entities existing_narrative_edges,
      e.source = main.id ∧ e.target = m.id ∧ e.type = EdgeType.HAS_METRIC := by
  have hkey : ∃ e ∈ llm_edges ++ metric_edges llm_edges entities main,
      ekey e = (main.id, m.id, EdgeType.HAS_METRIC) := by
    by_cases hllm : llm_edges.any (fun e =>
        decide (e.source = main.id ∧ e.target = m.id ∧ e.type = EdgeType.HAS_METRIC)) = true
    · rcases List.any_eq_true.mp hllm with ⟨e, he, hp⟩
      have hp' := of_decide_eq_true hp
      exact ⟨e, List.mem_append_left _ he,
        by simp [ekey, hp'.1, hp'.2.1, hp'.2.2]⟩
    · refine ⟨⟨main.id, m.id, EdgeType.HAS_METRIC⟩, List.mem_append_right _ ?_, rfl⟩
      apply List.mem_filterMap.mpr
      refine ⟨m, hm, ?_⟩
      simp only [hmt, if_true, reduceIte]
      rw [if_neg hllm]
  obtain ⟨e0, he0, hke0⟩ := hkey
  have hmem : e0 ∈ llm_edges ++ (metric_edges llm_edges entities main ++
      create_shared_property_edges entities
        (llm_edges ++ metric_edges llm_edges entities main ++
          existing_narrative_edges)) := by
    rcases List.mem_append.mp he0 with h | h
    · exact List.mem_append_left _ h
    · exact List.mem_append_right _ (List.mem_append_left _ h)
  have hred : enhance_with_heuristics llm_edges entities existing_narrative_edges
      = deduplicate_edges (llm_edges ++ (metric_edges llm_edges entities main ++
          create_shared_property_edges entities
            (llm_edges ++ metric_edges llm_edges entities main ++
              existing_narrative_edges))) := by
    simp only [enhance_with_heuristics]
    rw [hmain]
  rw [hred]
  obtain ⟨e, he, hke⟩ := (dedupGo_key_iff (main.id, m.id, EdgeType.HAS_METRIC)
    _ []).mpr ⟨by simp, e0, hmem, hke0⟩
  refine ⟨e, he, ?_, ?_, ?_⟩ <;>
    · simp only [ekey, Prod.mk.injEq] at hke
      tauto

/-- C10 witness: one Company, one Metric, no LLM edges — the enriched set
contains the Company→Metric HAS_METRIC edge. -/
theorem enhance_links_first_company_to_metrics_witness :
    ∃ e ∈ enhance_with_heuristics []
        [⟨"c1", .COMPANY, "ACME", []⟩, ⟨"m1", .METRIC, "Revenue", []⟩] [],
      e.source = "c1" ∧ e.target = "m1" ∧ e.type = EdgeType.HAS_METRIC := by
  have h := enhance_links_first_company_to_metrics []
    [⟨"c1", .COMPANY, "ACME", []⟩, ⟨"m1", .METRIC, "Revenue", []⟩] []
    ⟨"c1", .COMPANY, "ACME", []⟩ ⟨"m1", .METRIC, "Revenue", []⟩
    (by decide) (by decide) (by decide)
  exact h

/-!
## Claim C6 — confidence gate and edge-type normalization
-/

/-- Auxiliary characterization of the conversion loop on well-formed
entries (every entry carries `source_id` and `target_id`, so no `KeyError`
aborts the chunk): the produced edges are exactly the entries whose
effective confidence `rel.get('confidence', 0.8)` is at least 0.6, in
order, with the edge type normalized. -/
theorem convert_relationships_ok (rels : List RelEntry)
    (h : ∀ r ∈ rels, r.source_id.isSome ∧ r.target_id.isSome) :
    convert_relationships rels
      = .ok ((rels.filter
            (fun r => ! decide (r.confidence.getD (4/5) < 3/5))).map
          (fun r => ⟨r.source_id.getD "", r.target_id.getD "",
            normalize_edge_type (r.edge_type.getD "RELATED_TO")⟩)) := by
  induction rels with
  | nil => simp [convert_relationships]
  | cons r rest ih =>
    have hr := h r (List.mem_cons_self _ _)
    obtain ⟨src, hsrc⟩ := Option.isSome_iff_exists.mp hr.1
    obtain ⟨tgt, htgt⟩ := Option.isSome_iff_exists.mp hr.2
    have hrest := ih (fun x hx => h x (List.mem_cons_of_mem _ hx))
    by_cases hc : r.confidence.getD (4/5) < 3/5
    · rw [convert_relationships, if_pos hc, hrest]
      simp [List.filter_cons, hc]
    · rw [convert_relationships, if_neg hc, hsrc, htgt]
      simp only [hrest, Except.map]
      simp [List.filter_cons, hc, hsrc, htgt]

/-- C6: on a chunk of well-formed relationship entries, an entry is
converted to an Edge exactly when its confidence (defaulting to 0.8 when
absent) is at least 0.6 — entries below 0.6 are dropped; the edge type of
every converted entry is obtained by total normalization into the closed
`EdgeType` set: every canonical value maps to its own member, known
aliases such as OWNER_OF and PARTNER_OF map to their canonical member
(after trimming, upper-casing and `-`/space-to-`_` canonicalization), and
the empty or an unmapped string degrades to RELATED_TO. -/
theorem detect_relationships_conversion (rels : List RelEntry)
    (h : ∀ r ∈ rels, r.source_id.isSome ∧ r.target_id.isSome) :
    detect_relationships_in_chunk_convert rels
      = (rels.filter
            (fun r => ! decide (r.confidence.getD (4/5) < 3/5))).map
          (fun r => ⟨r.source_id.getD "", r.target_id.getD "",
            normalize_edge_type (r.edge_type.getD "RELATED_TO")⟩)
  ∧ (∀ t : EdgeType, normalize_edge_type (edge_type_value t) = t)
  ∧ normalize_edge_type "OWNER_OF" = EdgeType.OWNS
  ∧ normalize_edge_type "PARTNER_OF" = EdgeType.PARTNERS_WITH
  ∧ normalize_edge_type " owner-of " = EdgeType.OWNS
  ∧ normalize_edge_type "" = EdgeType.RELATED_TO
  ∧ normalize_edge_type "SOME_NOVEL_RELATION" = EdgeType.RELATED_TO := by
  refine ⟨?_, ?_, by decide, by decide, by decide, by decide, by decide⟩
  · rw [detect_relationships_in_chunk_convert, convert_relationships_ok rels h]
  · intro t
    cases t <;> decide

/-- C6 witness: a chunk with a kept aliased entry (confidence 0.9), a
dropped entry (confidence 0.5), and a kept entry with defaulted confidence
and edge type. -/
theorem detect_relationships_conversion_witness :
    detect_relationships_in_chunk_convert
        [⟨some "a", some "b", some "OWNER_OF", some (9/10)⟩,
         ⟨some "a", some "c", some "OWNS", some (1/2)⟩,
         ⟨some "c", some "d", none, none⟩]
      = [⟨"a", "b", EdgeType.OWNS⟩, ⟨"c", "d", EdgeType.RELATED_TO⟩] := by
  have h := (detect_relationships_conversion
      [⟨some "a", some "b", some "OWNER_OF", some (9/10)⟩,
       ⟨some "a", some "c", some "OWNS", some (1/2)⟩,
       ⟨some "c", some "d", none, none⟩] (by decide)).1
  rw [h]
  have c1 : ¬ ((9/10 : ℚ) < 3/5) := by norm_num
  have c2 : ((1/2 : ℚ) < 3/5) := by norm_num
  have c3 : ¬ ((4/5 : ℚ) < 3/5) := by norm_num
  have n1 : normalize_edge_type "OWNER_OF" = EdgeType.OWNS := by decide
  have n2 : normalize_edge_type "RELATED_TO" = EdgeType.RELATED_TO := by decide
  simp [List.filter_cons, List.filter_nil, c1, c2, c3, n1, n2]
  norm_num [n2]

/-!
## Normalizer — cascade selection

From `src/backend/services/normalization.py`,
`NormalizationService._create_entities`.  The subresults that the selection
logic chooses between are universally quantified inputs: the schema-based
(ADE) entity list, the deterministic table-parser entity list, the
detected document type with the three specialized parsers' outputs, the
narrative parser's chunked-LLM output (`none` models the LLM call raising,
in which case the regex fallback entities are used with no relationships),
and the city→county lookup derived from the markdown's HTML table rows.
The markdown itself and all selection thresholds are modelled exactly.

The returned pair is the selected (merged) entity list together with the
narrative relationships attached to the entities (the source stores them
on a `_narrative_relationships` attribute of the returned entities;
`none` models the attribute being absent).
-/

/-- Entity-keyed map used for `deterministic_map`: item assignment
(overwrite in place or append). -/
def emapSet : List (String × Entity) → String → Entity → List (String × Entity)
  | [], k, v => [(k, v)]
  | p :: rest, k, v =>
    if p.1 = k then (k, v) :: rest else p :: emapSet rest k v

/-- `dict.setdefault(k, v)`: insert at the end only when the key is
absent. -/
def emapSetdefault (m : List (String × Entity)) (k : String) (v : Entity) :
    List (String × Entity) :=
  if (m.find? (fun p => p.1 = k)).isSome then m else m ++ [(k, v)]

/-- `dict.get(k)` on an entity map. -/
def emapGet (m : List (String × Entity)) (k : String) : Option Entity :=
  (m.find? (fun p => p.1 = k)).map (fun p => p.2)

/-- `dict.get(k)` on a string-valued lookup. -/
def smapGet (m : List (String × String)) (k : String) : Option String :=
  (m.find? (fun p => p.1 = k)).map (fun p => p.2)

/-- Construction of `deterministic_map` in `_create_entities`: keyed by the
truthy `city` property value (overwriting) and, via `setdefault`, by the
entity name. -/
def build_deterministic_map (dets : List Entity) : List (String × Entity) :=
  dets.foldl (fun m det =>
    let keyOpt := if det.properties.isEmpty then none
      else pget det.properties "city"
    let m1 := match keyOpt with
      | some v => if v.truthy then emapSet m v.pyStr det else m
      | none => m
    emapSetdefault m1 det.name det) []

/-- `merge_with_deterministic` applied to one entity: rename to the truthy
`city` value, look the entity up in the deterministic map (by new name,
then by city), fill a falsy `county` from the deterministic `county` or
`column` property or from the markdown-derived lookup, then copy every
other deterministic property that is absent or None (the `column` key is
skipped). -/
def merge_entity (dmap : List (String × Entity))
    (county_lookup : List (String × String)) (e : Entity) : Entity :=
  let cityOpt := if e.properties.isEmpty then none else pget e.properties "city"
  let cityTruthy := truthyOpt cityOpt
  let name1 := if cityTruthy then (cityOpt.getD PVal.null).pyStr else e.name
  let detEnt := match emapGet dmap name1 with
    | some d => some d
    | none =>
      if cityTruthy then emapGet dmap ((cityOpt.getD PVal.null).pyStr) else none
  let detProps := match detEnt with
    | some d => d.properties
    | none => []
  let props1 :=
    if truthyOpt (pget e.properties "county") then e.properties
    else
      let a := pget detProps "county"
      let b := pget detProps "column"
      let countyValue := if truthyOpt a then a else b
      if truthyOpt countyValue then
        pset e.properties "county" (countyValue.getD PVal.null)
      else if cityTruthy then
        match smapGet county_lookup ((cityOpt.getD PVal.null).pyStr) with
        | some c => if c ≠ "" then pset e.properties "county" (PVal.s c)
            else e.properties
        | none => e.properties
      else e.properties
  let props2 := detProps.foldl (fun acc kv =>
    if kv.1 = "column" then acc
    else
      match pget acc kv.1 with
      | none => pset acc kv.1 kv.2
      | some PVal.null => pset acc kv.1 kv.2
      | some _ => acc) props1
  { e with name := name1, properties := props2 }

/-- `merge_with_deterministic` over an entity list. -/
def merge_with_deterministic (dmap : List (String × Entity))
    (county_lookup : List (String × String)) (entities : List Entity) :
    List Entity :=
  entities.map (merge_entity dmap county_lookup)

/-- Document type returned by `DocumentTypeDetector.detect_document_type`,
as dispatched on by `_create_entities` (every label other than the three
specialized ones falls to the table parser). -/
inductive DocType where
  | invoice
  | contract
  | loan_document
  | other
deriving DecidableEq, Repr

/-- The subresults that `_create_entities` selects between. -/
structure ExtractionCandidates where
  ade_entities : List Entity
  table_entities : List Entity
  doc_type : DocType
  invoice_entities : List Entity
  contract_entities : List Entity
  loan_entities : List Entity
  narrative_llm : Option (List Entity × List Edge)
  narrative_regex : List Entity
  county_lookup : List (String × String)
deriving DecidableEq, Repr

/-- The fallback entity set computed in the `< 20` branch of
`_create_entities`: the specialized parser selected by the detected
document type when markdown is present (truthy), the table parser
otherwise. -/
def fallback_entities (c : ExtractionCandidates) (markdown : String) :
    List Entity :=
  if markdown ≠ "" then
    match c.doc_type with
    | .invoice => c.invoice_entities
    | .contract => c.contract_entities
    | .loan_document => c.loan_entities
    | .other => c.table_entities
  else c.table_entities

/-- `NormalizationService._create_entities`: keep the schema-based set when
it has at least 20 entities; otherwise compute the fallback set and, when
the best structured count is below 5 and the markdown exceeds 10,000
characters, run the narrative parser.  `narrative_llm = some r` models the
chunked-LLM call returning `r`; `narrative_llm = none` models it raising,
in which case the local `narrative_relationships` is never assigned and
the regex fallback produces `narrative_regex`.  A successful LLM call with
at least one entity returns its merged entities with the relationships
attached; after a failed LLM call, a nonempty regex result makes line 311
(`entity._narrative_relationships = narrative_relationships`) read the
unassigned local — an `UnboundLocalError` that propagates, modelled as
`Except.error ()`.  Every fall-through path adopts whichever structured
set is larger (ties to the schema set).  Every returned entity list passes
through `merge_with_deterministic`. -/
def create_entities (c : ExtractionCandidates) (markdown : String) :
    Except Unit (List Entity × Option (List Edge)) :=
  let dmap := build_deterministic_map c.table_entities
  if 20 ≤ c.ade_entities.length then
    .ok (merge_with_deterministic dmap c.county_lookup c.ade_entities, none)
  else
    let entities := fallback_entities c markdown
    let larger : Except Unit (List Entity × Option (List Edge)) :=
      if c.ade_entities.length < entities.length then
        .ok (merge_with_deterministic dmap c.county_lookup entities, none)
      else
        .ok (merge_with_deterministic dmap c.county_lookup c.ade_entities,
          none)
    if max entities.length c.ade_entities.length < 5
        ∧ 10000 < markdown.length then
      if c.narrative_llm ≠ none then
        let narr := c.narrative_llm.getD ([], [])
        if 0 < narr.1.length then
          .ok (merge_with_deterministic dmap c.county_lookup narr.1,
            some narr.2)
        else larger
      else
        if 0 < c.narrative_regex.length then .error () else larger
    else larger

/-- The cascade selection rule exactly as claim C2 states it: schema set
kept (merged) at 20 or more entities; otherwise the larger of the
specialized/table set and the schema set; and whenever the best structured
result has fewer than 5 entities while the markdown exceeds 10,000
characters, the narrative parser's output — its entities plus its
inferred edges (the regex fallback, used when the LLM call raised, infers
none) — is used, unconditionally and without error. -/
def cascade_spec_literal (c : ExtractionCandidates) (markdown : String) :
    List Entity × Option (List Edge) :=
  let dmap := build_deterministic_map c.table_entities
  let A := c.ade_entities
  let B := fallback_entities c markdown
  if 20 ≤ A.length then
    (merge_with_deterministic dmap c.county_lookup A, none)
  else if max B.length A.length < 5 ∧ 10000 < markdown.length then
    if c.narrative_llm ≠ none then
      let narr := c.narrative_llm.getD ([], [])
      (merge_with_deterministic dmap c.county_lookup narr.1, some narr.2)
    else
      (merge_with_deterministic dmap c.county_lookup c.narrative_regex,
       some [])
  else if A.length < B.length then
    (merge_with_deterministic dmap c.county_lookup B, none)
  else
    (merge_with_deterministic dmap c.county_lookup A, none)

/-- The cascade selection rule as amended: identical to the claim except
in the narrative branch, where a successful LLM call has its output
adopted only when it contains at least one entity (otherwise the larger
structured set is adopted with no narrative edges), and a failed LLM call
whose regex fallback found at least one entity raises
(`UnboundLocalError`) instead of returning. -/
def cascade_spec_amended (c : ExtractionCandidates) (markdown : String) :
    Except Unit (List Entity × Option (List Edge)) :=
  let dmap := build_deterministic_map c.table_entities
  let A := c.ade_entities
  let B := fallback_entities c markdown
  let larger : Except Unit (List Entity × Option (List Edge)) :=
    if A.length < B.length then
      .ok (merge_with_deterministic dmap c.county_lookup B, none)
    else
      .ok (merge_with_deterministic dmap c.county_lookup A, none)
  if 20 ≤ A.length then
    .ok (merge_with_deterministic dmap c.county_lookup A, none)
  else if max B.length A.length < 5 ∧ 10000 < markdown.length then
    if c.narrative_llm ≠ none then
      let narr := c.narrative_llm.getD ([], [])
      if narr.1 ≠ [] then
        .ok (merge_with_deterministic dmap c.county_lookup narr.1,
          some narr.2)
      else larger
    else
      if c.narrative_regex ≠ [] then .error () else larger
  else larger

/-- A markdown text of 10,001 characters (exceeding the 10,000-character
narrative threshold). -/
def bigMarkdown : String :=
  String.mk (List.replicate 10001 'a')

/-- Candidate subresults where the schema extraction found one entity, the
structured parsers found none, and the narrative parser returned no
entities (and no relationships). -/
def c2Candidates : ExtractionCandidates :=
  { ade_entities := [⟨"e1", .METRIC, "Revenue", []⟩]
    table_entities := []
    doc_type := .other
    invoice_entities := []
    contract_entities := []
    loan_entities := []
    narrative_llm := some ([], [])
    narrative_regex := []
    county_lookup := [] }

/-- Candidate subresults where the chunked-LLM narrative call raised and
the regex fallback found one entity, with one schema entity and no
structured fallback entities. -/
def c2CandidatesCrash : ExtractionCandidates :=
  { ade_entities := [⟨"e1", .METRIC, "Revenue", []⟩]
    table_entities := []
    doc_type := .other
    invoice_entities := []
    contract_entities := []
    loan_entities := []
    narrative_llm := none
    narrative_regex := [⟨"e2", .PERSON, "John Smith", []⟩]
    county_lookup := [] }

/-- The big markdown has 10,001 characters. -/
theorem bigMarkdown_length : bigMarkdown.length = 10001 := by
  rw [bigMarkdown]
  show (List.replicate 10001 'a').length = 10001
  rw [List.length_replicate]

/-- The big markdown is not the empty (falsy) string. -/
theorem bigMarkdown_ne_empty : bigMarkdown ≠ "" := by
  intro h
  have hlen := congrArg String.length h
  rw [bigMarkdown_length] at hlen
  simp at hlen

/-- C2 counterexample: two runs refute the claim as stated.  With one
schema entity, no structured fallback entities, a 10,001-character
markdown and a successful narrative LLM call returning no entities, the
cascade reaches its narrative branch but does *not* use the narrative
output: it returns the merged schema entity with no attached narrative
edges, while the claim requires the narrative output (no entities, plus
its — empty — edge list) to be used.  And when the narrative LLM call
raised while the regex fallback found one entity, `_create_entities`
raises `UnboundLocalError` (line 311 reads the never-assigned local
`narrative_relationships`) instead of returning the narrative output the
claim promises. -/
theorem create_entities_narrative_counterexample :
    create_entities c2Candidates bigMarkdown
        ≠ .ok (cascade_spec_literal c2Candidates bigMarkdown)
  ∧ create_entities c2Candidates bigMarkdown
      = .ok ([⟨"e1", .METRIC, "Revenue", []⟩], none)
  ∧ cascade_spec_literal c2Candidates bigMarkdown = ([], some [])
  ∧ create_entities c2CandidatesCrash bigMarkdown = .error ()
  ∧ cascade_spec_literal c2CandidatesCrash bigMarkdown
      = ([⟨"e2", .PERSON, "John Smith", []⟩], some []) := by
  have hne : (bigMarkdown = "") = False := by
    simp [bigMarkdown_ne_empty]
  have hlen : (10000 < bigMarkdown.length) = True := by
    simp [bigMarkdown_length]
  have hB : fallback_entities c2Candidates bigMarkdown = [] := by
    rw [fallback_entities, if_pos bigMarkdown_ne_empty]
    rfl
  have hBc : fallback_entities c2CandidatesCrash bigMarkdown = [] := by
    rw [fallback_entities, if_pos bigMarkdown_ne_empty]
    rfl
  have hA : c2Candidates.ade_entities = [⟨"e1", .METRIC, "Revenue", []⟩] := rfl
  have hT : c2Candidates.table_entities = [] := rfl
  have hN : c2Candidates.narrative_llm = some ([], []) := rfl
  have hC : c2Candidates.county_lookup = [] := rfl
  have hAc : c2CandidatesCrash.ade_entities
      = [⟨"e1", .METRIC, "Revenue", []⟩] := rfl
  have hTc : c2CandidatesCrash.table_entities = [] := rfl
  have hNc : c2CandidatesCrash.narrative_llm = none := rfl
  have hRc : c2CandidatesCrash.narrative_regex
      = [⟨"e2", .PERSON, "John Smith", []⟩] := rfl
  have hCc : c2CandidatesCrash.county_lookup = [] := rfl
  have h1 : create_entities c2Candidates bigMarkdown
      = .ok ([⟨"e1", .METRIC, "Revenue", []⟩], none) := by
    simp only [create_entities, hB, hA, hT, hN, hC, hlen]
    norm_num [merge_with_deterministic, build_deterministic_map, merge_entity,
      pget, truthyOpt, pset, emapGet]
    intro h'
    simp at h'
  have h2 : cascade_spec_literal c2Candidates bigMarkdown = ([], some []) := by
    simp only [cascade_spec_literal, hB, hA, hT, hN, hC, hlen]
    norm_num [merge_with_deterministic]
    intro h'
    simp at h'
  have h4 : create_entities c2CandidatesCrash bigMarkdown = .error () := by
    simp only [create_entities, hBc, hAc, hTc, hNc, hRc, hCc, hlen]
    norm_num
  have h5 : cascade_spec_literal c2CandidatesCrash bigMarkdown
      = ([⟨"e2", .PERSON, "John Smith", []⟩], some []) := by
    simp only [cascade_spec_literal, hBc, hAc, hTc, hNc, hRc, hCc, hlen]
    norm_num [merge_with_deterministic, build_deterministic_map, merge_entity,
      pget, truthyOpt, pset, emapGet]
  refine ⟨?_, h1, h2, h4, h5⟩
  rw [h1, h2]
  simp

/-- C2 (amended): the cascade selection of `_create_entities` equals the
amended specification for every combination of subresults and markdown —
the schema set is kept (merged) at 20 or more entities; when the best
structured result has fewer than 5 entities and the markdown exceeds
10,000 characters the narrative parser runs, and a successful LLM call
with at least one entity has its entities and inferred edges used, a
successful call with no entities falls back to the larger structured set,
a failed call whose regex fallback found at least one entity raises
`UnboundLocalError`, and a failed call with an empty regex fallback falls
back to the larger structured set; otherwise the larger structured set is
adopted (ties to the schema set), merged, with no narrative edges
attached. -/
theorem create_entities_eq_cascade_spec_amended (c : ExtractionCandidates)
    (markdown : String) :
    create_entities c markdown = cascade_spec_amended c markdown := by
  rw [create_entities, cascade_spec_amended]
  by_cases h20 : 20 ≤ c.ade_entities.length
  · rw [if_pos h20, if_pos h20]
  · rw [if_neg h20, if_neg h20]
    by_cases hcond : max (fallback_entities c markdown).length
        c.ade_entities.length < 5 ∧ 10000 < markdown.length
    · rw [if_pos hcond, if_pos hcond]
      by_cases hn : c.narrative_llm ≠ none
      · rw [if_pos hn, if_pos hn]
        by_cases hnarr : 0 < (c.narrative_llm.getD ([], [])).1.length
        · rw [if_pos hnarr, if_pos (List.ne_nil_of_length_pos hnarr)]
        · rw [if_neg hnarr,
            if_neg (fun h => hnarr (List.length_pos.mpr h))]
      · rw [if_neg hn, if_neg hn]
        by_cases hreg : 0 < c.narrative_regex.length
        · rw [if_pos hreg, if_pos (List.ne_nil_of_length_pos hreg)]
        · rw [if_neg hreg,
            if_neg (fun h => hreg (List.length_pos.mpr h))]
    · rw [if_neg hcond, if_neg hcond]

/-!
## Markdown schema analyzer

From `src/backend/services/markdown_analyzer.py`
(`MarkdownSchemaAnalyzer`).  JSON schemas are modelled by a small JSON
value type.  BeautifulSoup's HTML parse is an external collaborator: the
HTML tables it finds in the markdown are a universally quantified input,
one table being its rows, one row being the `get_text(strip=True)` texts
of its cells.  Exceptions during table analysis fall back to the generic
schema in the source; the embedding is total, and quantifying over every
possible parse output covers those paths.
-/

/-- JSON values as needed for the generated schemas. -/
inductive Json where
  | str (s : String)
  | arr (xs : List Json)
  | obj (fields : List (String × Json))

/-- Key lookup in a JSON object's field list. -/
def jobjGet (fields : List (String × Json)) (k : String) : Option Json :=
  (fields.find? (fun p => p.1 = k)).map (fun p => p.2)

/-- The claim's validity notion: a JSON object of type "object" whose
top-level properties each carry a (string-valued) type. -/
def valid_json_schema : Json → Bool
  | .obj fields =>
    match jobjGet fields "type", jobjGet fields "properties" with
    | some (.str "object"), some (.obj props) =>
      props.all (fun p =>
        match p.2 with
        | .obj pf =>
          match jobjGet pf "type" with
          | some (.str _) => true
          | _ => false
        | _ => false)
    | _, _ => false
  | _ => false

/-- Number of top-level properties of a schema object. -/
def json_num_top_properties : Json → Nat
  | .obj fields =>
    match jobjGet fields "properties" with
    | some (.obj props) => props.length
    | _ => 0
  | _ => 0

/-- A character matched by the regex class `\w` (ASCII reading). -/
def is_word_char (c : Char) : Bool :=
  c.isAlphanum || c = '_'

/-- `re.sub(r'\s+', '_', …)`: replace every whitespace run by one
underscore. -/
def ws_runs_to_underscore : List Char → List Char
  | [] => []
  | c :: rest =>
    if c.isWhitespace then
      '_' :: ws_runs_to_underscore (rest.dropWhile Char.isWhitespace)
    else c :: ws_runs_to_underscore rest
termination_by l => l.length
decreasing_by
  · simp only [List.length_cons]
    exact Nat.lt_succ_of_le (List.dropWhile_sublist _).length_le
  · simp

/-- `re.sub(r'_+', '_', …)`: collapse every underscore run to one
underscore. -/
def underscore_collapse : List Char → List Char
  | [] => []
  | c :: rest =>
    if c = '_' then '_' :: underscore_collapse (rest.dropWhile (fun x => x = '_'))
    else c :: underscore_collapse rest
termination_by l => l.length
decreasing_by
  · simp only [List.length_cons]
    exact Nat.lt_succ_of_le (List.dropWhile_sublist _).length_le
  · simp

/-- `str.strip('_')`. -/
def strip_underscores (cs : List Char) : List Char :=
  ((cs.dropWhile (fun x => x = '_')).reverse.dropWhile (fun x => x = '_')).reverse

/-- `MarkdownSchemaAnalyzer._to_snake_case`: drop characters that are
neither word characters nor whitespace, turn whitespace runs into
underscores, lower-case, collapse underscore runs, strip outer
underscores, and fall back to "field" when nothing is left. -/
def to_snake_case (text : String) : String :=
  let cs1 := text.toList.filter (fun c => is_word_char c || c.isWhitespace)
  let cs2 := ws_runs_to_underscore cs1
  let cs3 := cs2.map Char.toLower
  let cs4 := underscore_collapse cs3
  let cs5 := strip_underscores cs4
  if cs5.isEmpty then "field" else String.mk cs5

/-- `MarkdownSchemaAnalyzer._infer_field_type`: the financial-keyword set
marking a header as numeric. -/
def numeric_keywords : List String :=
  [ "amount", "total", "balance", "price", "cost", "value",
    "count", "quantity", "number", "rate", "percent", "tax",
    "receivable", "payable", "asset", "liability", "equity",
    "revenue", "expense", "income", "cash", "investment" ]

/-- Date-indicator keywords (kept as string-typed in the source). -/
def date_keywords : List String :=
  ["date", "time", "year", "month", "day"]

/-- `MarkdownSchemaAnalyzer._infer_field_type`. -/
def infer_field_type (fieldName : String) : String :=
  let fieldLower := pyLower fieldName
  if numeric_keywords.any (fun k => strContainsSub fieldLower k) then "number"
  else if date_keywords.any (fun k => strContainsSub fieldLower k) then "string"
  else "string"

/-- `MarkdownSchemaAnalyzer._generate_array_name`. -/
def generate_array_name (headers : List String) : String :=
  if headers.any (fun h => strContainsSub (pyLower h) "city") then "cities"
  else if headers.any (fun h => strContainsSub (pyLower h) "company"
      || strContainsSub (pyLower h) "organization") then "companies"
  else if headers.any (fun h => strContainsSub (pyLower h) "person"
      || strContainsSub (pyLower h) "employee") then "people"
  else if headers.any (fun h => strContainsSub (pyLower h) "product"
      || strContainsSub (pyLower h) "item") then "items"
  else if headers.any (fun h => strContainsSub (pyLower h) "transaction"
      || strContainsSub (pyLower h) "payment") then "transactions"
  else "records"

/-- `MarkdownSchemaAnalyzer._build_schema_from_headers`. -/
def build_schema_from_headers (headers : List String) : Json :=
  let identifierField := headers.headD "id"
  let properties := headers.map (fun h =>
    (h, Json.obj [("type", Json.str (infer_field_type h))]))
  Json.obj
    [ ("$schema", .str "http://json-schema.org/draft-07/schema#"),
      ("title", .str "Auto-generated Schema from Table Structure"),
      ("type", .str "object"),
      ("properties", .obj
        [ (generate_array_name headers, .obj
            [ ("type", .str "array"),
              ("description", .str "Extracted table data"),
              ("items", .obj
                [ ("type", .str "object"),
                  ("required", .arr [.str identifierField]),
                  ("properties", .obj properties) ]) ]) ]) ]

/-- An HTML table as delivered by BeautifulSoup: its rows, each row the
stripped cell texts. -/
abbrev HtmlTable := List (List String)

/-- `MarkdownSchemaAnalyzer._extract_table_headers`: among the first three
rows, the row yielding the most valid snake-cased headers (strict
improvement, so the earliest maximum wins); a header cell is valid when
its text is non-empty, shorter than 100 characters, and snake-cases to
something other than "field". -/
def extract_table_headers (table : HtmlTable) : List String :=
  let candidates := (table.take 3).map (fun row =>
    row.filterMap (fun cellText =>
      if cellText ≠ "" ∧ cellText.length < 100 then
        let snake := to_snake_case cellText
        if snake ≠ "" ∧ snake ≠ "field" then some snake else none
      else none))
  candidates.foldl (fun best cur =>
    if best.length < cur.length then cur else best) []

/-- `MarkdownSchemaAnalyzer._invoice_schema`. -/
def invoice_schema : Json :=
  Json.obj
    [ ("$schema", .str "http://json-schema.org/draft-07/schema#"),
      ("title", .str "Invoice"),
      ("type", .str "object"),
      ("properties", .obj
        [ ("invoice_number", .obj [("type", .str "string")]),
          ("date", .obj [("type", .str "string")]),
          ("vendor", .obj [("type", .str "string")]),
          ("customer", .obj [("type", .str "string")]),
          ("total_amount", .obj [("type", .str "number")]),
          ("line_items", .obj
            [ ("type", .str "array"),
              ("items", .obj
                [ ("type", .str "object"),
                  ("properties", .obj
                    [ ("description", .obj [("type", .str "string")]),
                      ("quantity", .obj [("type", .str "number")]),
                      ("unit_price", .obj [("type", .str "number")]),
                      ("amount", .obj [("type", .str "number")]) ]) ]) ]) ]) ]

/-- `MarkdownSchemaAnalyzer._contract_schema`. -/
def contract_schema : Json :=
  Json.obj
    [ ("$schema", .str "http://json-schema.org/draft-07/schema#"),
      ("title", .str "Contract"),
      ("type", .str "object"),
      ("properties", .obj
        [ ("contract_title", .obj [("type", .str "string")]),
          ("effective_date", .obj [("type", .str "string")]),
          ("parties", .obj
            [ ("type", .str "array"),
              ("items", .obj [("type", .str "string")]) ]),
          ("terms", .obj
            [ ("type", .str "array"),
              ("items", .obj [("type", .str "string")]) ]),
          ("signatures", .obj
            [ ("type", .str "array"),
              ("items", .obj
                [ ("type", .str "object"),
                  ("properties", .obj
                    [ ("party", .obj [("type", .str "string")]),
                      ("date", .obj [("type", .str "string")]) ]) ]) ]) ]) ]

/-- `MarkdownSchemaAnalyzer._financial_schema`. -/
def financial_schema : Json :=
  Json.obj
    [ ("$schema", .str "http://json-schema.org/draft-07/schema#"),
      ("title", .str "Financial Statement"),
      ("type", .str "object"),
      ("properties", .obj
        [ ("report_title", .obj [("type", .str "string")]),
          ("period", .obj [("type", .str "string")]),
          ("entity", .obj [("type", .str "string")]),
          ("financial_metrics", .obj
            [ ("type", .str "array"),
              ("items", .obj
                [ ("type", .str "object"),
                  ("properties", .obj
                    [ ("metric_name", .obj [("type", .str "string")]),
                      ("value", .obj [("type", .str "number")]),
                      ("category", .obj [("type", .str "string")]) ]) ]) ]) ]) ]

/-- `MarkdownSchemaAnalyzer._default_schema`: the worst-case fallback,
with its three top-level properties (title, summary, key_entities). -/
def default_schema : Json :=
  Json.obj
    [ ("$schema", .str "http://json-schema.org/draft-07/schema#"),
      ("title", .str "Document Data"),
      ("type", .str "object"),
      ("properties", .obj
        [ ("title", .obj [("type", .str "string")]),
          ("summary", .obj [("type", .str "string")]),
          ("key_entities", .obj
            [ ("type", .str "array"),
              ("items", .obj
                [ ("type", .str "object"),
                  ("properties", .obj
                    [ ("name", .obj [("type", .str "string")]),
                      ("type", .obj [("type", .str "string")]),
                      ("value", .obj [("type", .str "string")]) ]) ]) ]) ]) ]

/-- `MarkdownSchemaAnalyzer._generate_generic_schema`: classify by keyword
occurrence in the lower-cased markdown. -/
def generate_generic_schema (markdown : String) : Json :=
  let markdownLower := pyLower markdown
  if ["invoice", "bill", "receipt"].any
      (fun w => strContainsSub markdownLower w) then invoice_schema
  else if ["contract", "agreement"].any
      (fun w => strContainsSub markdownLower w) then contract_schema
  else if ["financial", "balance sheet", "income statement"].any
      (fun w => strContainsSub markdownLower w) then financial_schema
  else default_schema

/-- `MarkdownSchemaAnalyzer._generate_schema_from_html_tables`: union of
the headers of all parsed tables, preserving first-seen order (the
`seen_headers` set plus append). -/
def collect_all_headers (tables : List HtmlTable) : List String :=
  tables.foldl (fun acc table =>
    (extract_table_headers table).foldl (fun acc2 h =>
      if h ∈ acc2 then acc2 else acc2 ++ [h]) acc) []

/-- `MarkdownSchemaAnalyzer._generate_schema_from_html_tables` body. -/
def generate_schema_from_html_tables (markdown : String)
    (tables : List HtmlTable) : Json :=
  if tables.isEmpty then generate_generic_schema markdown
  else if (collect_all_headers tables).isEmpty then
    generate_generic_schema markdown
  else build_schema_from_headers (collect_all_headers tables)

/-- Match of the separator regex `^\s*\|[\s\-:]+\|` against a line. -/
def pipe_sep_line (s : String) : Bool :=
  match s.toList.dropWhile Char.isWhitespace with
  | '|' :: rest =>
    let body := rest.takeWhile (fun ch => ch.isWhitespace || ch = '-' || ch = ':')
    decide (0 < body.length) && decide ((rest.drop body.length).head? = some '|')
  | _ => false

/-- `MarkdownSchemaAnalyzer._detect_pipe_tables`: a line among the first
100 containing `|` and followed by a separator line. -/
def detect_pipe_tables (markdown : String) : Bool :=
  let lines := pySplitOn markdown '\n'
  (List.range (min 100 lines.length)).any (fun i =>
    strContainsSub (lines.getD i "") "|" && decide (i + 1 < lines.length)
      && pipe_sep_line (lines.getD (i + 1) ""))

/-- The line scan of `_generate_schema_from_pipe_tables`: the first line
containing `|` whose successor is a separator line yields the stripped
non-empty header cells. -/
def find_pipe_header : List String → Option (List String)
  | l1 :: l2 :: rest =>
    if strContainsSub l1 "|" && pipe_sep_line l2 then
      some (((pySplitOn l1 '|').map pyStrip).filter (fun h => h ≠ ""))
    else find_pipe_header (l2 :: rest)
  | _ => none

/-- `MarkdownSchemaAnalyzer._generate_schema_from_pipe_tables`. -/
def generate_schema_from_pipe_tables (markdown : String) : Json :=
  match find_pipe_header (pySplitOn markdown '\n') with
  | some headers => build_schema_from_headers (headers.map to_snake_case)
  | none => generate_generic_schema markdown

/-- `MarkdownSchemaAnalyzer.analyze_and_generate_schema`, as a function of
the markdown and of the tables BeautifulSoup parses out of it. -/
def analyze_and_generate_schema (markdown : String)
    (parsedTables : List HtmlTable) : Json :=
  if strContainsSub markdown "<table" then
    generate_schema_from_html_tables markdown parsedTables
  else if detect_pipe_tables markdown then
    generate_schema_from_pipe_tables markdown
  else
    generate_generic_schema markdown

/-- Every header-built schema is valid: its single top-level property (the
named array) carries type "array". -/
theorem valid_build_schema (headers : List String) :
    valid_json_schema (build_schema_from_headers headers) = true := by
  simp [build_schema_from_headers, valid_json_schema, jobjGet]

/-- Every generic schema is valid, whichever keyword branch fires. -/
theorem valid_generic_schema (markdown : String) :
    valid_json_schema (generate_generic_schema markdown) = true := by
  rw [generate_generic_schema]
  split_ifs <;> decide

/-- C8 counterexample: on markdown with no tables and no recognized
document-type keywords (for example the empty string), the analyzer emits
the default schema — which has three top-level typed properties, not the
single property the claim states. -/
theorem default_schema_not_single_property :
    analyze_and_generate_schema "" [] = default_schema
  ∧ json_num_top_properties default_schema = 3
  ∧ json_num_top_properties (analyze_and_generate_schema "" []) ≠ 1 := by
  have h0 : analyze_and_generate_schema "" [] = default_schema := rfl
  refine ⟨h0, rfl, ?_⟩
  rw [h0]
  decide

/-- C8 (amended): for every markdown and every table set parsed from it,
`analyze_and_generate_schema` returns a valid JSON schema — an object of
type "object" whose top-level properties all carry a type — and in the
worst case (no tables, no recognized keywords) emits the fixed default
schema, which has three typed properties.  The embedding is a total
function, matching the source's never-fails contract (exceptions in the
table analysis fall back to the generic schema). -/
theorem analyze_schema_always_valid :
    (∀ (markdown : String) (parsedTables : List HtmlTable),
      valid_json_schema (analyze_and_generate_schema markdown parsedTables)
        = true)
  ∧ analyze_and_generate_schema "" [] = default_schema
  ∧ json_num_top_properties default_schema = 3 := by
  refine ⟨?_, rfl, rfl⟩
  intro markdown parsedTables
  rw [analyze_and_generate_schema]
  split_ifs
  · rw [generate_schema_from_html_tables]
    split_ifs
    · exact valid_generic_schema markdown
    · exact valid_generic_schema markdown
    · exact valid_build_schema _
  · rw [generate_schema_from_pipe_tables]
    cases find_pipe_header (pySplitOn markdown '\n') with
    | none => exact valid_generic_schema markdown
    | some headers => exact valid_build_schema _
  · exact valid_generic_schema markdown

/-!
## Indexer — text chunking and chunk page numbers

From `src/backend/services/indexing.py`, `IndexingService._chunk_text` and
the page-number computation of `index_document_text`.  The two float
divisions of the source (`len(chunks) / total_pages` and
`idx / chunks_per_page`) are modelled with exact rationals; the checked
bounds depend only on nonnegativity and the explicit `max`/`min` caps, so
they are insensitive to floating-point rounding.  The Weaviate batch is
modelled as the list of (chunk content, page number) records it receives;
entity cross-linking fields are not observed by the claim and are
omitted. -/

/-- `' '.join(words)`. -/
def joinSpace : List String → String
  | [] => ""
  | [w] => w
  | w :: rest => w ++ " " ++ joinSpace rest

/-- The chunking loop of `_chunk_text` (chunk_size 500, overlap 100):
emit the next 500 words, then advance by 400 words. -/
def chunk_words : List String → List String
  | [] => []
  | w :: rest =>
    joinSpace ((w :: rest).take 500) :: chunk_words ((w :: rest).drop 400)
termination_by l => l.length
decreasing_by
  simp only [List.length_drop, List.length_cons]
  omega

/-- `IndexingService._chunk_text` with its default parameters. -/
def chunk_text (text : String) : List String :=
  chunk_words (pySplitWhitespace text)

/-- The chunk records produced by `index_document_text` (content and
1-indexed page number): when a positive `total_pages` is given the chunks
are distributed evenly across it, otherwise 2 chunks per page are assumed
and the page count is estimated; `int(...)` truncation on the nonnegative
quotient is the rational floor, and the estimated page is capped at the
page count. -/
def document_chunk_pages (markdown : String) (total_pages : Nat) :
    List (String × Nat) :=
  let chunks := chunk_text markdown
  let chunks_per_page : ℚ :=
    if 0 < total_pages then max 1 ((chunks.length : ℚ) / (total_pages : ℚ))
    else 2
  let tp := if 0 < total_pages then total_pages
    else max 1 ((chunks.length + 1) / 2)
  chunks.enum.map (fun p =>
    (p.2, min ((Int.floor ((p.1 : ℚ) / chunks_per_page)).toNat + 1) tp))

/-- The chunks are the 500-word windows starting every 400 words. -/
theorem chunk_words_get :
    ∀ (k : Nat) (ws : List String),
      (chunk_words ws).get? k
        = if 400 * k < ws.length
          then some (joinSpace ((ws.drop (400 * k)).take 500)) else none := by
  intro k
  induction k with
  | zero =>
    intro ws
    cases ws with
    | nil => simp [chunk_words]
    | cons w rest => simp [chunk_words]
  | succ k ih =>
    intro ws
    cases ws with
    | nil => simp [chunk_words]
    | cons w rest =>
      have hstep : chunk_words (w :: rest)
          = joinSpace ((w :: rest).take 500)
            :: chunk_words ((w :: rest).drop 400) := by
        simp [chunk_words]
      rw [hstep]
      show (chunk_words ((w :: rest).drop 400)).get? k = _
      rw [ih ((w :: rest).drop 400)]
      rw [List.drop_drop]
      have hlen : ((w :: rest).drop 400).length = (w :: rest).length - 400 :=
        List.length_drop _ _
      have hco : (400 * k < ((w :: rest).drop 400).length)
          ↔ (400 * (k + 1) < (w :: rest).length) := by
        rw [hlen]
        omega
      have harg : 400 + 400 * k = 400 * (k + 1) := by ring
      rw [harg]
      by_cases hc : 400 * (k + 1) < (w :: rest).length
      · rw [if_pos (hco.mpr hc), if_pos hc]
      · rw [if_neg (fun h => hc (hco.mp h)), if_neg hc]

/-- C9: for every markdown and positive `total_pages`, every chunk record
produced by `index_document_text` carries a page number in the closed
interval [1, total_pages]; the chunks themselves are the ~500-word windows
advancing 400 words at a time (hence 100 words of overlap), and they cover
the whole text: every word index lies inside some produced window. -/
theorem index_document_text_page_bounds (markdown : String)
    (total_pages : Nat) (hp : 0 < total_pages) :
    (∀ p ∈ document_chunk_pages markdown total_pages,
        1 ≤ p.2 ∧ p.2 ≤ total_pages)
  ∧ (∀ k, (chunk_text markdown).get? k
        = if 400 * k < (pySplitWhitespace markdown).length
          then some (joinSpace
            (((pySplitWhitespace markdown).drop (400 * k)).take 500))
          else none)
  ∧ (∀ j, j < (pySplitWhitespace markdown).length →
        ∃ k, 400 * k ≤ j ∧ j < 400 * k + 500
          ∧ 400 * k < (pySplitWhitespace markdown).length) := by
  refine ⟨?_, fun k => chunk_words_get k _, ?_⟩
  · intro p hmem
    simp only [document_chunk_pages, hp, if_pos] at hmem
    rcases List.mem_map.mp hmem with ⟨q, _, rfl⟩
    constructor
    · exact le_min (Nat.succ_le_succ (Nat.zero_le _)) hp
    · exact min_le_right _ _
  · intro j hj
    refine ⟨j / 400, ?_, ?_, ?_⟩
    · omega
    · omega
    · omega

/-- C9 witness: a one-chunk document with 3 known pages; the single chunk
gets page number 1, inside [1, 3], as the theorem instantiates. -/
theorem index_document_text_page_bounds_witness :
    ("hello", 1) ∈ document_chunk_pages "hello" 3
  ∧ 1 ≤ (("hello", 1) : String × Nat).2
  ∧ (("hello", 1) : String × Nat).2 ≤ 3 := by
  have hw : pySplitWhitespace "hello" = ["hello"] := rfl
  have h1 : chunk_words ["hello"]
      = joinSpace ((["hello"]).take 500) :: chunk_words ((["hello"]).drop 400) := by
    simp [chunk_words]
  have hdrop : ((["hello"] : List String)).drop 400 = [] := by decide
  have htake : ((["hello"] : List String)).take 500 = ["hello"] := by decide
  have hnil : chunk_words [] = [] := by simp [chunk_words]
  have hc : chunk_text "hello" = ["hello"] := by
    rw [chunk_text, hw, h1, hdrop, htake, hnil, joinSpace]
  have hmax : max (1 : ℚ) ((1 : ℚ) / 3) = 1 := by
    rw [max_eq_left]
    norm_num
  have hpages : document_chunk_pages "hello" 3 = [("hello", 1)] := by
    simp only [document_chunk_pages, hc]
    norm_num [hmax, List.enum]
  have hmem : ("hello", 1) ∈ document_chunk_pages "hello" 3 := by
    rw [hpages]
    exact List.mem_singleton.mpr rfl
  have h := (index_document_text_page_bounds "hello" 3 (by decide)).1
    ("hello", 1) hmem
  exact ⟨hmem, h.1, h.2⟩

/-!
## Persistence — saving and loading the six state files

From `src/backend/services/persistence.py` and the models under
`src/backend/models/`.  The JSON files are modelled by the decoded data
they contain (`json.dump`/`json.load` on JSON-representable data is the
identity and is not re-modelled).  Records are modelled with the fields
the persistence layer reads and writes:

* `Entity` (`models/entity.py`) declares no `display_type` or
  `original_type` field, and `Document` (`models/document.py`) declares no
  `metadata` field, although the rest of the system passes and reads them.
  Under pydantic v2 an unknown constructor keyword is silently dropped
  (default `extra` behaviour), while *reading* the attribute raises
  `AttributeError` — so `save_graphs`/`save_entities` crash on the first
  `Entity` they serialize (`entity.display_type`, persistence.py:87/138)
  and `save_documents` crashes on the first `Document` (`doc.metadata`,
  persistence.py:55).  Each saver's blanket `except` swallows the error
  and the file is never written; in a fresh state directory the loaders
  then find no file and return the empty store.  A save that raised is
  modelled as `none`.
* the unsaved `Entity.embedding` and the `created_at`/`updated_at`
  timestamps are omitted; `Risk.detected_at` (regenerated on load) is
  likewise omitted.
* datetimes that survive as ISO strings are modelled as the strings.
-/

/-- Citation (`models/citation.py`); `section` is spelled `section_name`
(`section` is reserved in Lean). -/
structure CitationR where
  page : Int
  section_name : Option String
  table_id : Option String
  cell : Option String
  clause : Option String
  confidence : Option ℚ
deriving DecidableEq, Repr

/-- Document processing status (`models/document.py`). -/
inductive DocumentStatus where
  | PENDING | UPLOADING | UPLOADED | EXTRACTING | EXTRACTED
  | NORMALIZING | NORMALIZED | INDEXING | INDEXED | COMPLETED | FAILED
deriving DecidableEq, Repr

/-- `DocumentStatus.value`. -/
def document_status_value : DocumentStatus → String
  | .PENDING => "pending"
  | .UPLOADING => "uploading"
  | .UPLOADED => "uploaded"
  | .EXTRACTING => "extracting"
  | .EXTRACTED => "extracted"
  | .NORMALIZING => "normalizing"
  | .NORMALIZED => "normalized"
  | .INDEXING => "indexing"
  | .INDEXED => "indexed"
  | .COMPLETED => "completed"
  | .FAILED => "failed"

/-- `DocumentStatus(s)`: the member with the given value, if any. -/
def document_status_of_value (s : String) : Option DocumentStatus :=
  ([.PENDING, .UPLOADING, .UPLOADED, .EXTRACTING, .EXTRACTED, .NORMALIZING,
    .NORMALIZED, .INDEXING, .INDEXED, .COMPLETED,
    (.FAILED : DocumentStatus)]).find?
    (fun t => document_status_value t = s)

/-- `EntityType.value`. -/
def entity_type_value : EntityType → String
  | .COMPANY => "Company"
  | .SUBSIDIARY => "Subsidiary"
  | .LOAN => "Loan"
  | .INVOICE => "Invoice"
  | .METRIC => "Metric"
  | .CLAUSE => "Clause"
  | .INSTRUMENT => "Instrument"
  | .VENDOR => "Vendor"
  | .PERSON => "Person"
  | .LOCATION => "Location"

/-- `EntityType(s)`. -/
def entity_type_of_value (s : String) : Option EntityType :=
  ([.COMPANY, .SUBSIDIARY, .LOAN, .INVOICE, .METRIC, .CLAUSE, .INSTRUMENT,
    .VENDOR, .PERSON, (.LOCATION : EntityType)]).find?
    (fun t => entity_type_value t = s)

/-- `EdgeType(s)`. -/
def edge_type_of_value (s : String) : Option EdgeType :=
  all_edge_types.find? (fun t => edge_type_value t = s)

/-- Risk severity (`models/risk.py`). -/
inductive RiskSeverity where
  | low | medium | high | critical
deriving DecidableEq, Repr

/-- `RiskSeverity.value`. -/
def risk_severity_value : RiskSeverity → String
  | .low => "low"
  | .medium => "medium"
  | .high => "high"
  | .critical => "critical"

/-- `RiskSeverity(s)`. -/
def risk_severity_of_value (s : String) : Option RiskSeverity :=
  ([.low, .medium, .high, (.critical : RiskSeverity)]).find?
    (fun t => risk_severity_value t = s)

/-- The in-memory Entity record: exactly the declared persisted fields of
`models/entity.py` (no `display_type`/`original_type` — pydantic drops
those constructor keywords, and an instance can never hold them). -/
structure EntityRec where
  id : String
  type : EntityType
  name : String
  properties : PDict
  citations : List CitationR
  document_id : String
  graph_id : String
deriving DecidableEq, Repr

/-- The in-memory Edge record as persisted. -/
structure EdgeRec where
  id : String
  source : String
  target : String
  type : EdgeType
  properties : PDict
  graph_id : String
deriving DecidableEq, Repr

/-- The in-memory Risk record as persisted (without the regenerated
`detected_at`). -/
structure RiskRec where
  id : String
  type : String
  severity : RiskSeverity
  description : String
  affected_entity_ids : List String
  citations : List CitationR
  score : ℚ
  threshold : ℚ
  actual_value : ℚ
  recommendation : String
  graph_data : Option PDict
  document_id : String
  graph_id : String
deriving DecidableEq, Repr

/-- The in-memory Document record: exactly the declared persisted fields
of `models/document.py` (no `metadata` — pydantic drops that constructor
keyword, and an instance can never hold it). -/
structure DocumentRec where
  id : String
  filename : String
  file_path : String
  file_size : Int
  mime_type : String
  status : DocumentStatus
  uploaded_at : Option String
  graph_id : Option String
  entities_count : Int
  edges_count : Int
  ade_output : Option PDict
  extraction_id : Option String
  total_pages : Option Int
  confidence_score : Option ℚ
deriving DecidableEq, Repr

/-- One graph in `graphs_store` (entities and edges inlined). -/
structure GraphRec where
  graph_id : Option String
  document_id : Option String
  entities : List EntityRec
  edges : List EdgeRec
  metadata : PDict
deriving DecidableEq, Repr

/-- A chat session, a plain JSON-ready dict in the source. -/
structure SessionRec where
  id : String
  name : String
  document_ids : List String
  created_at : String
  updated_at : String
  message_count : Int
deriving DecidableEq, Repr

/-- A chat message, a plain JSON-ready dict in the source. -/
structure MessageRec where
  id : String
  session_id : String
  role : String
  content : String
  graph_data : Option PDict
  created_at : String
deriving DecidableEq, Repr

/-- All six in-memory stores. -/
structure AppState where
  documents : List (String × DocumentRec)
  graphs : List (String × GraphRec)
  entities : List (String × List EntityRec)
  chat_sessions : List (String × SessionRec)
  chat_messages : List (String × List MessageRec)
  risks : List (String × List RiskRec)
deriving DecidableEq, Repr

/-- The entity dict `save_graphs`/`save_entities` try to write: exactly
the eight listed keys — no `citations` — though the write never completes
(evaluating `entity.display_type` raises first), so a saved file holds
entity dicts only if produced externally.  The loaders read all eight
keys, passing `display_type`/`original_type` to constructor keywords that
pydantic drops. -/
structure EntityDict where
  id : String
  type : String
  name : String
  display_type : Option String
  original_type : Option String
  properties : PDict
  document_id : String
  graph_id : String
deriving DecidableEq, Repr

/-- The edge dict written by `save_graphs`. -/
structure EdgeDict where
  id : String
  source : String
  target : String
  type : String
  properties : PDict
  graph_id : String
deriving DecidableEq, Repr

/-- The risk dict written by `save_risks` (`model_dump(mode='json')`
serializes every field, including `graph_data` and the citations). -/
structure RiskDict where
  id : String
  type : String
  severity : String
  description : String
  affected_entity_ids : List String
  citations : List CitationR
  score : ℚ
  threshold : ℚ
  actual_value : ℚ
  recommendation : String
  graph_data : Option PDict
  document_id : String
  graph_id : String
deriving DecidableEq, Repr

/-- The document dict `save_documents` tries to write, though the write
never completes for any document (evaluating `doc.metadata` raises
first); the loader reads these keys, its `metadata` value going to a
constructor keyword that pydantic drops. -/
structure DocumentDict where
  id : String
  filename : String
  file_path : String
  file_size : Int
  mime_type : String
  status : String
  uploaded_at : Option String
  metadata : PDict
  graph_id : Option String
  entities_count : Int
  edges_count : Int
  ade_output : Option PDict
  extraction_id : Option String
  total_pages : Option Int
  confidence_score : Option ℚ
deriving DecidableEq, Repr

/-- One graph as written to `graphs.json`. -/
structure GraphDict where
  graph_id : Option String
  document_id : Option String
  entities : List EntityDict
  edges : List EdgeDict
  metadata : PDict
deriving DecidableEq, Repr

/-- The six state files after `save_all`, in a fresh state directory.  A
`none` file is one whose saver raised while serializing: the blanket
`except` logs and returns, nothing is written and the file does not
exist; the corresponding loader's `path.exists()` check then yields the
empty store. -/
structure SavedState where
  documents_file : Option (List (String × DocumentDict))
  graphs_file : Option (List (String × GraphDict))
  entities_file : Option (List (String × List EntityDict))
  chat_sessions_file : List (String × SessionRec)
  chat_messages_file : List (String × List MessageRec)
  risks_file : List (String × List RiskDict)
deriving DecidableEq, Repr

/-- Edge serialization in `save_graphs`. -/
def edge_to_saved (e : EdgeRec) : EdgeDict :=
  { id := e.id, source := e.source, target := e.target,
    type := edge_type_value e.type, properties := e.properties,
    graph_id := e.graph_id }

/-- Risk serialization in `save_risks` (`model_dump`). -/
def risk_to_saved (r : RiskRec) : RiskDict :=
  { id := r.id, type := r.type, severity := risk_severity_value r.severity,
    description := r.description,
    affected_entity_ids := r.affected_entity_ids, citations := r.citations,
    score := r.score, threshold := r.threshold,
    actual_value := r.actual_value, recommendation := r.recommendation,
    graph_data := r.graph_data, document_id := r.document_id,
    graph_id := r.graph_id }

/-- `PersistenceService.save_documents`: serializing any document
evaluates `doc.metadata` (persistence.py:55), a field `models/document.py`
does not declare, so pydantic raises `AttributeError`; the function's
blanket `except` swallows it and the file is never written.  Only the
empty store serializes, writing `{}`. -/
def save_documents (store : List (String × DocumentRec)) :
    Option (List (String × DocumentDict)) :=
  if store.isEmpty then some [] else none

/-- The graph dict `save_graphs` writes for a graph whose entity list is
empty (the only kind it ever finishes serializing). -/
def graph_to_saved (g : GraphRec) : GraphDict :=
  { graph_id := g.graph_id, document_id := g.document_id,
    entities := [], edges := g.edges.map edge_to_saved,
    metadata := g.metadata }

/-- `PersistenceService.save_graphs`: serializing any `Entity` evaluates
`entity.display_type` (persistence.py:87), undeclared on
`models/entity.py`, so pydantic raises `AttributeError` and the blanket
`except` leaves the file unwritten.  Only stores whose graphs all have
empty entity lists serialize (edge dicts use only declared fields). -/
def save_graphs (store : List (String × GraphRec)) :
    Option (List (String × GraphDict)) :=
  if store.all (fun p => p.2.entities.isEmpty) then
    some (store.map (fun p => (p.1, graph_to_saved p.2)))
  else none

/-- `PersistenceService.save_entities`: as in `save_graphs`, serializing
any `Entity` raises (persistence.py:138) and nothing is written; only
stores whose per-graph lists are all empty serialize. -/
def save_entities (store : List (String × List EntityRec)) :
    Option (List (String × List EntityDict)) :=
  if store.all (fun p => p.2.isEmpty) then
    some (store.map (fun p => (p.1, ([] : List EntityDict))))
  else none

/-- `PersistenceService.save_all` (every store provided).  Sessions,
messages and risks always serialize (plain dicts, and `model_dump` on the
fully declared Risk model). -/
def save_all (s : AppState) : SavedState :=
  { documents_file := save_documents s.documents,
    graphs_file := save_graphs s.graphs,
    entities_file := save_entities s.entities,
    chat_sessions_file := s.chat_sessions,
    chat_messages_file := s.chat_messages,
    risks_file := s.risks.map (fun p => (p.1, p.2.map risk_to_saved)) }

/-- Entity reconstruction in `load_graphs`/`load_entities`: the
`Entity(...)` constructor is called without `citations`, so they default
to the empty list; the `display_type`/`original_type` keywords it is
passed are dropped by pydantic; an unknown type string raises
(propagating to the store-level handler). -/
def entity_of_saved (d : EntityDict) : Option EntityRec :=
  match entity_type_of_value d.type with
  | some t => some
      { id := d.id, type := t, name := d.name,
        properties := d.properties, citations := [],
        document_id := d.document_id, graph_id := d.graph_id }
  | none => none

/-- Edge reconstruction in `load_graphs`. -/
def edge_of_saved (d : EdgeDict) : Option EdgeRec :=
  match edge_type_of_value d.type with
  | some t => some
      { id := d.id, source := d.source, target := d.target, type := t,
        properties := d.properties, graph_id := d.graph_id }
  | none => none

/-- Risk reconstruction in `load_risks`: the `Risk(...)` constructor is
called without `graph_data` (and with a fresh `detected_at`), so the
subgraph payload is dropped. -/
def risk_of_saved (d : RiskDict) : Option RiskRec :=
  match risk_severity_of_value d.severity with
  | some sv => some
      { id := d.id, type := d.type, severity := sv,
        description := d.description,
        affected_entity_ids := d.affected_entity_ids,
        citations := d.citations, score := d.score,
        threshold := d.threshold, actual_value := d.actual_value,
        recommendation := d.recommendation, graph_data := none,
        document_id := d.document_id, graph_id := d.graph_id }
  | none => none

/-- Document reconstruction in `load_documents`: a falsy stored status
falls back to UPLOADED, an unknown one raises; a falsy stored
`uploaded_at` becomes None; the `metadata` keyword the constructor is
passed is dropped by pydantic. -/
def document_of_saved (d : DocumentDict) : Option DocumentRec :=
  let ua : Option String :=
    match d.uploaded_at with
    | some ts => if ts = "" then none else some ts
    | none => none
  match (if d.status = "" then some DocumentStatus.UPLOADED
      else document_status_of_value d.status) with
  | some st => some
      { id := d.id, filename := d.filename, file_path := d.file_path,
        file_size := d.file_size, mime_type := d.mime_type, status := st,
        uploaded_at := ua,
        graph_id := d.graph_id,
        entities_count := d.entities_count, edges_count := d.edges_count,
        ade_output := d.ade_output, extraction_id := d.extraction_id,
        total_pages := d.total_pages,
        confidence_score := d.confidence_score }
  | none => none

/-- Reconstruction of every element of a list, failing when any element
fails (the loop bodies of the load functions, whose first raise aborts the
whole store). -/
def omapM {α β : Type} (f : α → Option β) : List α → Option (List β)
  | [] => some []
  | a :: rest =>
    match f a with
    | some b => (omapM f rest).map (fun bs => b :: bs)
    | none => none

/-- Graph reconstruction in `load_graphs`. -/
def graph_of_saved (d : GraphDict) : Option GraphRec :=
  match omapM entity_of_saved d.entities, omapM edge_of_saved d.edges with
  | some entities, some edges =>
    some { graph_id := d.graph_id, document_id := d.document_id,
           entities := entities, edges := edges, metadata := d.metadata }
  | _, _ => none

/-- `PersistenceService.load_all`: each store loads independently; a
missing file (`path.exists()` false) and a reconstruction that raises
both yield the empty store. -/
def load_all (f : SavedState) : AppState :=
  { documents := (f.documents_file.bind (fun file => omapM (fun p =>
      (document_of_saved p.2).map (fun d => (p.1, d))) file)).getD [],
    graphs := (f.graphs_file.bind (fun file => omapM (fun p =>
      (graph_of_saved p.2).map (fun g => (p.1, g))) file)).getD [],
    entities := (f.entities_file.bind (fun file => omapM (fun p =>
      (omapM entity_of_saved p.2).map (fun es => (p.1, es))) file)).getD [],
    chat_sessions := f.chat_sessions_file,
    chat_messages := f.chat_messages_file,
    risks := (omapM (fun p =>
      (omapM risk_of_saved p.2).map (fun rs => (p.1, rs)))
      f.risks_file).getD [] }

/-- A reloaded risk: every persisted field survives except `graph_data`,
which loads back None. -/
def strip_risk (r : RiskRec) : RiskRec :=
  { r with graph_data := none }

/-- What of a state actually survives the save/load round trip: the
documents store reloads empty (a nonempty one is never written, an empty
one is written as `{}`); the graphs and entities stores survive only when
they contain no entity at all, and otherwise reload empty; chat sessions
and messages survive exactly; risks survive minus each `graph_data`. -/
def strip_state (s : AppState) : AppState :=
  { documents := [],
    graphs := if s.graphs.all (fun p => p.2.entities.isEmpty) then s.graphs
      else [],
    entities := if s.entities.all (fun p => p.2.isEmpty) then s.entities
      else [],
    chat_sessions := s.chat_sessions,
    chat_messages := s.chat_messages,
    risks := s.risks.map (fun p => (p.1, p.2.map strip_risk)) }

/-- Enum round trip: entity types. -/
theorem entity_type_of_value_value (t : EntityType) :
    entity_type_of_value (entity_type_value t) = some t := by
  cases t <;> rfl

/-- Enum round trip: edge types. -/
theorem edge_type_of_value_value (t : EdgeType) :
    edge_type_of_value (edge_type_value t) = some t := by
  cases t <;> rfl

/-- Enum round trip: severities. -/
theorem risk_severity_of_value_value (t : RiskSeverity) :
    risk_severity_of_value (risk_severity_value t) = some t := by
  cases t <;> rfl

/-- Enum round trip: document statuses. -/
theorem document_status_of_value_value (t : DocumentStatus) :
    document_status_of_value (document_status_value t) = some t := by
  cases t <;> rfl

/-- No document status serializes to the empty string. -/
theorem document_status_value_ne_empty (t : DocumentStatus) :
    document_status_value t ≠ "" := by
  cases t <;> decide

/-- A saved edge loads back unchanged. -/
theorem edge_round (e : EdgeRec) :
    edge_of_saved (edge_to_saved e) = some e := by
  rcases e with ⟨_, _, _, t, _, _⟩
  simp [edge_of_saved, edge_to_saved, edge_type_of_value_value]

/-- A saved risk loads back with all fields intact except `graph_data`,
which is reset to None. -/
theorem risk_round (r : RiskRec) :
    risk_of_saved (risk_to_saved r) = some (strip_risk r) := by
  rcases r with ⟨_, _, sv, _, _, _, _, _, _, _, _, _, _⟩
  simp [risk_of_saved, risk_to_saved, risk_severity_of_value_value,
    strip_risk]

/-- Pointwise-inverted serialization over a plain list. -/
theorem omapM_map_round {A B C : Type} (tos : A → B) (ofs : B → Option C)
    (g : A → C) (hpoint : ∀ a, ofs (tos a) = some (g a))
    (l : List A) : omapM ofs (l.map tos) = some (l.map g) := by
  induction l with
  | nil => rfl
  | cons a rest ih =>
    simp [omapM, hpoint a, ih]

/-- Pointwise-inverted serialization over a keyed store. -/
theorem omapM_pair_round {A C : Type} (tos : A → C) {B : Type}
    (ofs : C → Option B) (g : A → B)
    (l : List (String × A))
    (h : ∀ p ∈ l, ofs (tos p.2) = some (g p.2)) :
    omapM (fun p => (ofs p.2).map (fun x => (p.1, x)))
        (l.map (fun p => (p.1, tos p.2)))
      = some (l.map (fun p => (p.1, g p.2))) := by
  induction l with
  | nil => rfl
  | cons p rest ih =>
    have hp := h p (List.mem_cons_self _ _)
    have hrest := ih (fun q hq => h q (List.mem_cons_of_mem _ hq))
    simp [omapM, hp, hrest]

/-- An entity-free graph's saved dict loads back to the graph itself. -/
theorem graph_round (g : GraphRec) (h : g.entities = []) :
    graph_of_saved (graph_to_saved g) = some g := by
  rcases g with ⟨gi, di, ents, eds, md⟩
  simp only at h
  subst h
  simp only [graph_of_saved, graph_to_saved]
  rw [omapM_map_round edge_to_saved edge_of_saved id
    (by intro e; simpa using edge_round e) eds]
  simp [omapM]

/-- A keyed store whose values are all `[]` is unchanged by rebuilding it
with `[]` values. -/
theorem map_nil_snd_of_all_nil {α : Type} :
    ∀ (l : List (String × List α)), (∀ p ∈ l, p.2 = []) →
      l.map (fun p => (p.1, ([] : List α))) = l
  | [], _ => rfl
  | ⟨k, v⟩ :: rest, h => by
    have hp : v = [] := h ⟨k, v⟩ (List.mem_cons_self _ _)
    have ih := map_nil_snd_of_all_nil rest
      (fun q hq => h q (List.mem_cons_of_mem _ hq))
    simp only [List.map_cons, ih, hp]

/-- The documents store after the round trip: always empty (a nonempty
store is never written; an empty one is written and reloads empty). -/
theorem load_docs_save (docs : List (String × DocumentRec)) :
    ((save_documents docs).bind (fun file => omapM (fun p =>
        (document_of_saved p.2).map (fun d => (p.1, d))) file)).getD []
      = [] := by
  cases docs <;> rfl

/-- The graphs store after the round trip: unchanged when no graph holds
an entity, empty otherwise. -/
theorem load_graphs_save (graphs : List (String × GraphRec)) :
    ((save_graphs graphs).bind (fun file => omapM (fun p =>
        (graph_of_saved p.2).map (fun g => (p.1, g))) file)).getD []
      = if graphs.all (fun p => p.2.entities.isEmpty) then graphs
        else [] := by
  by_cases hg : graphs.all (fun p => p.2.entities.isEmpty) = true
  · rw [if_pos hg, save_graphs, if_pos hg]
    simp only [Option.some_bind]
    have hround : ∀ p ∈ graphs,
        graph_of_saved (graph_to_saved p.2) = some (id p.2) := by
      intro p hp
      have hb : p.2.entities.isEmpty = true := List.all_eq_true.mp hg p hp
      have hpe : p.2.entities = [] := by
        cases hE : p.2.entities with
        | nil => rfl
        | cons a l => rw [hE] at hb; simp at hb
      simpa using graph_round p.2 hpe
    rw [omapM_pair_round graph_to_saved graph_of_saved id graphs hround]
    simp
  · rw [if_neg hg, save_graphs, if_neg hg]
    rfl

/-- The per-graph entities store after the round trip: unchanged when all
its lists are empty, empty otherwise. -/
theorem load_entities_save (ents : List (String × List EntityRec)) :
    ((save_entities ents).bind (fun file => omapM (fun p =>
        (omapM entity_of_saved p.2).map (fun es => (p.1, es))) file)).getD []
      = if ents.all (fun p => p.2.isEmpty) then ents else [] := by
  by_cases he : ents.all (fun p => p.2.isEmpty) = true
  · rw [if_pos he, save_entities, if_pos he]
    simp only [Option.some_bind]
    rw [omapM_pair_round (fun _l => ([] : List EntityDict))
      (fun l => omapM entity_of_saved l) (fun _l => ([] : List EntityRec))
      ents (fun p _ => rfl)]
    simp only [Option.getD_some]
    refine map_nil_snd_of_all_nil ents (fun p hp => ?_)
    have hb : p.2.isEmpty = true := List.all_eq_true.mp he p hp
    cases hE : p.2 with
    | nil => rfl
    | cons a l => rw [hE] at hb; simp at hb
  · rw [if_neg he, save_entities, if_neg he]
    rfl

/-- The risks store after the round trip: every risk survives minus its
`graph_data`. -/
theorem load_risks_save (risks : List (String × List RiskRec)) :
    (omapM (fun p => (omapM risk_of_saved p.2).map (fun rs => (p.1, rs)))
        (risks.map (fun p => (p.1, p.2.map risk_to_saved)))).getD []
      = risks.map (fun p => (p.1, p.2.map strip_risk)) := by
  rw [omapM_pair_round (fun l => l.map risk_to_saved)
    (fun l => omapM risk_of_saved l) (fun l => l.map strip_risk) risks
    (fun p _ => omapM_map_round risk_to_saved risk_of_saved
      strip_risk risk_round p.2)]
  rfl

/-- What saving all six JSON state files and loading them back actually
reproduces, for every in-memory state. -/
theorem load_all_save_all (s : AppState) :
    load_all (save_all s) = strip_state s := by
  rcases s with ⟨docs, graphs, ents, sess, msgs, risks⟩
  simp only [load_all, save_all, strip_state, AppState.mk.injEq]
  exact ⟨load_docs_save docs, load_graphs_save graphs,
    load_entities_save ents, trivial, trivial, load_risks_save risks⟩

/-- A concrete citation. -/
def c3Citation : CitationR :=
  ⟨1, some "Business Overview", none, none, none, none⟩

/-- A concrete entity with one citation. -/
def c3Entity : EntityRec :=
  { id := "e1", type := .COMPANY, name := "ACME",
    properties := [("industry", .s "tech")],
    citations := [c3Citation], document_id := "d1", graph_id := "g1" }

/-- A concrete document. -/
def c3Document : DocumentRec :=
  { id := "d1", filename := "10K.pdf", file_path := "./uploads/d1.pdf",
    file_size := 4, mime_type := "application/pdf", status := .COMPLETED,
    uploaded_at := some "2025-01-01T00:00:00", graph_id := some "g1",
    entities_count := 1, edges_count := 0, ade_output := none,
    extraction_id := none, total_pages := some 1,
    confidence_score := none }

/-- A concrete risk with a subgraph payload. -/
def c3Risk : RiskRec :=
  { id := "r1", type := "Interest Rate Risk", severity := .high,
    description := "variable rate above threshold",
    affected_entity_ids := ["e1"], citations := [],
    score := 1, threshold := 0, actual_value := 0,
    recommendation := "hedge", graph_data := some [("entities", .s "e1")],
    document_id := "d1", graph_id := "g1" }

/-- A concrete graph holding the entity. -/
def c3Graph : GraphRec :=
  { graph_id := some "g1", document_id := some "d1",
    entities := [c3Entity], edges := [], metadata := [] }

/-- A concrete in-memory state: one document, one graph holding the
entity, the per-graph entity list, a chat session, and one risk. -/
def c3State : AppState :=
  { documents := [("d1", c3Document)],
    graphs := [("g1", c3Graph)],
    entities := [("g1", [c3Entity])],
    chat_sessions := [("s1", ⟨"s1", "chat", ["d1"], "t0", "t0", 0⟩)],
    chat_messages := [],
    risks := [("g1", [c3Risk])] }

/-- C3 (code bug): the persistence round trip does not reproduce the
in-memory maps.  For every state, reloading yields `strip_state`: the
documents store reloads empty (`save_documents` evaluates the undeclared
`doc.metadata`, raises `AttributeError` inside its blanket `except`, and
writes nothing), the graphs and entities stores reload empty whenever
they hold any `Entity` (`save_graphs`/`save_entities` evaluate the
undeclared `entity.display_type` and abort the same way), chat sessions
and messages survive, and risks survive minus each `graph_data`.  At the
concrete one-document, one-graph, one-entity state, the reloaded state
differs from the original: its documents, graphs and entities stores are
empty while the original's are not, its chat sessions match, and its one
risk comes back without the `graph_data` subgraph the original risk
carried. -/
theorem persistence_round_trip :
    (∀ s : AppState, load_all (save_all s) = strip_state s)
  ∧ load_all (save_all c3State) ≠ c3State
  ∧ (load_all (save_all c3State)).documents = []
  ∧ c3State.documents ≠ []
  ∧ (load_all (save_all c3State)).graphs = []
  ∧ c3State.graphs ≠ []
  ∧ (load_all (save_all c3State)).entities = []
  ∧ c3State.entities ≠ []
  ∧ (load_all (save_all c3State)).chat_sessions = c3State.chat_sessions
  ∧ (load_all (save_all c3State)).risks = [("g1", [strip_risk c3Risk])]
  ∧ (strip_risk c3Risk).graph_data = none
  ∧ c3Risk.graph_data ≠ none := by
  have hc := load_all_save_all c3State
  refine ⟨load_all_save_all, ?_, ?_, ?_, ?_, ?_, ?_, ?_, ?_, ?_, rfl, ?_⟩
  · intro h
    rw [hc] at h
    have hg := congrArg AppState.graphs h
    simp [strip_state, c3State, c3Graph, c3Entity] at hg
  · rw [hc]
    rfl
  · simp [c3State]
  · rw [hc]
    simp [strip_state, c3State, c3Graph, c3Entity]
  · simp [c3State]
  · rw [hc]
    simp [strip_state, c3State, c3Entity]
  · simp [c3State]
  · rw [hc]
    rfl
  · rw [hc]
    rfl
  · simp [c3Risk]
